import Mathlib

/-!
# Kel-Shader-Engine: vertex-binding resolver, scene store, uniform packing, framebuffer
construction and render passes

Shallow embedding of `Engine/Code/engine.cpp`, `Engine/Code/engine.h` and
`Engine/Code/ModelLoadingFunctions.h`.

* Machine integers are natural numbers; the one place where the source narrows a sum
  into a 32-bit local (`const u32 offset` in `FindVAO`) carries an explicit `% 2 ^ 32`.
  Handles, indices and buffer heads stay below `2 ^ 32` in every run considered and carry
  no reduction.
* The OpenGL context is external to the repository. It is modelled as the trace of the
  calls the code issues, together with a counter from which `glGenVertexArrays` draws
  fresh, non-zero names; texture and framebuffer names are counted from the trace. What a
  query returns (`glCheckFramebufferStatus`, `glGetUniformLocation`) and what ImGui reports
  are inputs of the function that asks.
* `assert` is active: a violated assertion and an out-of-range vector subscript are the
  `Except.error` results.
* Floating-point numbers are an abstract type `F`, and the glm functions are parameters.
* `Globals.h` and `BufferSuppFunctions.h` are not among the source files. The records they
  declare carry the fields the code reads, and the uniform buffer packer is modelled from
  the specification: what a write does (`PushData`) and, apart from it, the failure mode of
  a write past the capacity (`PushDataChecked`).
-/

namespace KelShaderEngine

/-! ## ModelLoadingFunctions.h -/

/-- One attribute of a mesh vertex stream (`u8 location; u8 componentCount; u8 offset`). -/
structure VertexBufferAttribute where
  location : Nat
  componentCount : Nat
  offset : Nat
deriving DecidableEq, Repr

/-- Layout of a vertex stream: its attributes and the stride. -/
structure VertexBufferLayout where
  attributes : List VertexBufferAttribute
  stride : Nat
deriving DecidableEq, Repr

/-- One input attribute a linked program expects (`u8 location; u8 componentCount`). -/
structure VertexShaderAttribute where
  location : Nat
  componentCount : Nat
deriving DecidableEq, Repr

/-- Attribute layout introspected from a linked program. -/
structure VertexShaderLayout where
  attributes : List VertexShaderAttribute
deriving DecidableEq, Repr

/-- A cached vertex array object: its GL name and the program it was built for. -/
structure VAO where
  handle : Nat
  programHandle : Nat
deriving DecidableEq, Repr

/-! ## Records declared outside the three source files, with the fields the code reads -/

/-- The fields of `SubMesh` that `FindVAO` reads and writes, and `indices`, of which
`RenderGeometry` reads the size. -/
structure SubMesh where
  vertexBufferLayout : VertexBufferLayout
  vertexOffset : Nat
  indexOffset : Nat
  vaos : List VAO
  indices : List Nat := []
deriving DecidableEq, Repr

/-- The fields of `Mesh` that `FindVAO` reads and writes. -/
structure Mesh where
  submeshes : List SubMesh
  vertexBufferHandle : Nat
  indexBufferHandle : Nat
deriving DecidableEq, Repr

/-- The fields of `Program` that `FindVAO` reads. -/
structure Program where
  handle : Nat
  shaderLayout : VertexShaderLayout
deriving DecidableEq, Repr

/-- The field of `Texture` that `RenderGeometry` reads. -/
structure Texture where
  handle : Nat
deriving DecidableEq, Repr

/-- The field of `Material` that `RenderGeometry` reads. -/
structure Material where
  albedoTextureIdx : Nat
deriving DecidableEq, Repr

/-- The fields of `Model` that `RenderGeometry` reads. -/
structure Model where
  meshIdx : Nat
  materialIdx : List Nat
deriving DecidableEq, Repr

/-- The fields of `FrameBuffer`: the framebuffer name, the colour attachments in the order
they were pushed, and the depth attachment. -/
structure FrameBuffer where
  fbHandle : Nat
  colorAttachment : List Nat
  depthHandle : Nat
deriving DecidableEq, Repr

/-! ## The OpenGL context -/

/-- Buffer binding targets used by the code. -/
inductive BufferTarget where
  | GL_ARRAY_BUFFER
  | GL_ELEMENT_ARRAY_BUFFER
deriving DecidableEq, Repr

/-- Component types passed to `glVertexAttribPointer`. -/
inductive ComponentType where
  | GL_FLOAT
deriving DecidableEq, Repr

/-- Internal formats passed to `glTexImage2D`. -/
inductive InternalFormat where
  | GL_RGBA8
  | GL_RGBA16F
  | GL_DEPTH_COMPONENT24
deriving DecidableEq, Repr

/-- Pixel formats passed to `glTexImage2D`. -/
inductive PixelFormat where
  | GL_RGBA
  | GL_DEPTH_COMPONENT
deriving DecidableEq, Repr

/-- Pixel data types passed to `glTexImage2D`. -/
inductive PixelType where
  | GL_UNSIGNED_BYTE
  | GL_FLOAT
deriving DecidableEq, Repr

/-- Parameter names passed to `glTexParameteri`. -/
inductive TextureParameter where
  | GL_TEXTURE_MIN_FILTER
  | GL_TEXTURE_MAG_FILTER
  | GL_TEXTURE_WRAP_R
  | GL_TEXTURE_WRAP_S
  | GL_TEXTURE_WRAP_T
deriving DecidableEq, Repr

/-- Parameter values passed to `glTexParameteri`. -/
inductive TextureParameterValue where
  | GL_NEAREST
  | GL_CLAMP_TO_EDGE
deriving DecidableEq, Repr

/-- Index types passed to `glDrawElements`. -/
inductive IndexType where
  | GL_UNSIGNED_SHORT
  | GL_UNSIGNED_INT
deriving DecidableEq, Repr

/-- The two colours given to `glClearColor`: `(0.1f, 0.1f, 0.1f, 1.0f)` and
`(0.0f, 0.0f, 0.0f, 0.0f)`. -/
inductive ClearColor where
  | darkGrey
  | transparentBlack
deriving DecidableEq, Repr

/-- The OpenGL calls issued by the code, with their arguments. A texture call has the target
`GL_TEXTURE_2D`, a framebuffer call the target `GL_FRAMEBUFFER`, both at level 0;
`glTexImage2D` has border 0 and no pixel data; `glClear` clears colour and depth;
`glBindBufferRange` has the target `GL_UNIFORM_BUFFER`; `glActiveTexture` has the number
`k` of the unit `GL_TEXTUREk`; `glDrawElements` draws `GL_TRIANGLES`. -/
inductive GLCall where
  | glGenVertexArrays (name : Nat)
  | glBindVertexArray (name : Nat)
  | glBindBuffer (target : BufferTarget) (buffer : Nat)
  | glVertexAttribPointer (index ncomp : Nat) (type : ComponentType) (normalized : Bool)
      (stride offset : Nat)
  | glEnableVertexAttribArray (index : Nat)
  | glGenTextures (name : Nat)
  | glBindTexture (texture : Nat)
  | glTexImage2D (internalFormat : InternalFormat) (width height : Int)
      (format : PixelFormat) (type : PixelType)
  | glTexParameteri (pname : TextureParameter) (param : TextureParameterValue)
  | glGenFramebuffers (name : Nat)
  | glBindFramebuffer (framebuffer : Nat)
  | glFramebufferTexture (attachment texture : Nat)
  | glDrawBuffers (bufs : List Nat)
  | glCheckFramebufferStatus
  | glClearColor (color : ClearColor)
  | glClear
  | glViewport (x y width height : Int)
  | glUseProgram (program : Nat)
  | glBindBufferRange (index buffer offset size : Nat)
  | glActiveTexture (unit : Nat)
  | glUniform1i (location value : Int)
  | glDrawElements (count : Nat) (type : IndexType) (offset : Nat)
deriving DecidableEq, Repr

/-- The OpenGL context: how many vertex array names were handed out, and the calls issued
so far, oldest first. -/
structure GLState where
  vaoCount : Nat
  calls : List GLCall
deriving DecidableEq, Repr

/-- Record one call in the context. -/
def GLState.call (gl : GLState) (c : GLCall) : GLState :=
  { gl with calls := gl.calls ++ [c] }

/-- Effect of `glGenVertexArrays(1, &name)`: the next unused name, which is never zero. -/
def glGenVertexArrays (gl : GLState) : GLState × Nat :=
  ({ vaoCount := gl.vaoCount + 1,
     calls := gl.calls ++ [GLCall.glGenVertexArrays (gl.vaoCount + 1)] }, gl.vaoCount + 1)

/-- Ways in which a function does not return: the violated assertion of `FindVAO`, the
subscripts `mesh.submeshes[submeshIndex]` and `entities[light.visualRef]` out of range, a
subscript out of range in `Render` or `RenderGeometry`, and a write past the capacity of the
uniform buffer. -/
inductive Failure where
  | assertAttributeWasLinked
  | submeshIndexOutOfRange
  | visualRefOutOfRange
  | subscriptOutOfRange
  | capacityOverrun
deriving DecidableEq, Repr

/-! ## engine.cpp : FindVAO -/

/-- The cache scan of `FindVAO` (lines 133-140): the handle of the first record stored for
`programHandle`, and `0` (the initial `ReturnValue`) when there is none. The scan covers
the whole list: its length stays below `2 ^ 32`. -/
def lookupVAO (programHandle : Nat) : List VAO → Nat
  | [] => 0
  | v :: rest => if v.programHandle = programHandle then v.handle else lookupVAO programHandle rest

/-- The inner loop of `FindVAO` (lines 155-170) for one shader attribute location: the first
submesh attribute with that location is given to `glVertexAttribPointer` and enabled.
Returns the context and `attributeWasLinked`. -/
def linkAttribute (Submesh : SubMesh) (shaderLocation : Nat) :
    List VertexBufferAttribute → GLState → GLState × Bool
  | [], gl => (gl, false)
  | a :: rest, gl =>
    if shaderLocation = a.location then
      let index := a.location
      let ncomp := a.componentCount
      let offset := (a.offset + Submesh.vertexOffset) % 2 ^ 32
      let stride := Submesh.vertexBufferLayout.stride
      (((gl.call (GLCall.glVertexAttribPointer index ncomp ComponentType.GL_FLOAT false
            stride offset)).call (GLCall.glEnableVertexAttribArray index)), true)
    else linkAttribute Submesh shaderLocation rest gl

/-- The outer loop of `FindVAO` (lines 151-172): every shader attribute is linked in turn,
and `assert(attributeWasLinked)` stops the run at the first one that is not. -/
def linkLayout (Submesh : SubMesh) :
    List VertexShaderAttribute → GLState → Except Failure GLState
  | [], gl => Except.ok gl
  | s :: rest, gl =>
    match linkAttribute Submesh s.location Submesh.vertexBufferLayout.attributes gl with
    | (gl1, true) => linkLayout Submesh rest gl1
    | (_, false) => Except.error Failure.assertAttributeWasLinked

/-- Model of `GLuint FindVAO(Mesh& mesh, u32 submeshIndex, const Program& program)`:
the context and mesh after the call, and the returned handle. -/
def FindVAO (gl : GLState) (mesh : Mesh) (submeshIndex : Nat) (program : Program) :
    Except Failure (GLState × Mesh × Nat) :=
  match mesh.submeshes[submeshIndex]? with
  | none => Except.error Failure.submeshIndexOutOfRange
  | some Submesh =>
    let ReturnValue := lookupVAO program.handle Submesh.vaos
    if ReturnValue = 0 then
      let gen := glGenVertexArrays gl
      let ReturnValue := gen.2
      let gl1 := gen.1.call (GLCall.glBindVertexArray ReturnValue)
      let gl2 := gl1.call (GLCall.glBindBuffer BufferTarget.GL_ARRAY_BUFFER mesh.vertexBufferHandle)
      let gl3 := gl2.call
        (GLCall.glBindBuffer BufferTarget.GL_ELEMENT_ARRAY_BUFFER mesh.indexBufferHandle)
      match linkLayout Submesh program.shaderLayout.attributes gl3 with
      | Except.error e => Except.error e
      | Except.ok gl4 =>
        let gl5 := gl4.call (GLCall.glBindVertexArray 0)
        let vao : VAO := { handle := ReturnValue, programHandle := program.handle }
        let Submesh1 := { Submesh with vaos := Submesh.vaos ++ [vao] }
        Except.ok (gl5, { mesh with submeshes := mesh.submeshes.set submeshIndex Submesh1 },
          ReturnValue)
    else
      Except.ok (gl, mesh, ReturnValue)

/-! ## Vocabulary for the statements about FindVAO -/

/-- The two calls `FindVAO` issues for a matched submesh attribute. -/
def linkCalls (Submesh : SubMesh) (a : VertexBufferAttribute) : List GLCall :=
  [GLCall.glVertexAttribPointer a.location a.componentCount ComponentType.GL_FLOAT false
      Submesh.vertexBufferLayout.stride ((a.offset + Submesh.vertexOffset) % 2 ^ 32),
   GLCall.glEnableVertexAttribArray a.location]

/-- The first submesh attribute whose location equals the given shader location. -/
def firstMatch (shaderLocation : Nat) (attrs : List VertexBufferAttribute) :
    Option VertexBufferAttribute :=
  attrs.find? (fun a => decide (shaderLocation = a.location))

/-- The first match of every shader attribute, when each has one. -/
def firstMatches (attrs : List VertexBufferAttribute) :
    List VertexShaderAttribute → Option (List VertexBufferAttribute)
  | [] => some []
  | s :: rest =>
    match firstMatch s.location attrs, firstMatches attrs rest with
    | some a, some as => some (a :: as)
    | _, _ => none

/-- A run of `FindVAO` calls on one mesh. Each call comes with the OpenGL context in which it
is made (whatever happened to the context between two calls), its submesh index and its
program; the mesh is threaded through the calls and the run stops at the first call that
fails. -/
def FindVAOs (mesh : Mesh) : List (GLState × Nat × Program) → Except Failure Mesh
  | [] => Except.ok mesh
  | (gl, submeshIndex, program) :: rest =>
    match FindVAO gl mesh submeshIndex program with
    | Except.error e => Except.error e
    | Except.ok (_, mesh1, _) => FindVAOs mesh1 rest

/-- The calls `FindVAO` issues when it builds the vertex array `name` from the matched
attributes `ms`. -/
def createCalls (mesh : Mesh) (Submesh : SubMesh) (name : Nat)
    (ms : List VertexBufferAttribute) : List GLCall :=
  [GLCall.glGenVertexArrays name, GLCall.glBindVertexArray name,
   GLCall.glBindBuffer BufferTarget.GL_ARRAY_BUFFER mesh.vertexBufferHandle,
   GLCall.glBindBuffer BufferTarget.GL_ELEMENT_ARRAY_BUFFER mesh.indexBufferHandle] ++
    ms.flatMap (linkCalls Submesh) ++ [GLCall.glBindVertexArray 0]

/-- The mesh with one more record in the cache of submesh `submeshIndex`. -/
def pushVAO (mesh : Mesh) (submeshIndex : Nat) (Submesh : SubMesh) (vao : VAO) : Mesh :=
  { mesh with submeshes :=
      mesh.submeshes.set submeshIndex { Submesh with vaos := Submesh.vaos ++ [vao] } }

/-- One `glVertexAttribPointer` configuration. -/
structure AttribPointer where
  index : Nat
  ncomp : Nat
  type : ComponentType
  stride : Nat
  offset : Nat
deriving DecidableEq, Repr

/-- The vertex attribute pointers configured by a sequence of calls, in call order. -/
def attribPointers : List GLCall → List AttribPointer
  | [] => []
  | GLCall.glVertexAttribPointer index ncomp type _ stride offset :: rest =>
      { index := index, ncomp := ncomp, type := type, stride := stride, offset := offset } ::
        attribPointers rest
  | GLCall.glGenVertexArrays _ :: rest => attribPointers rest
  | GLCall.glBindVertexArray _ :: rest => attribPointers rest
  | GLCall.glBindBuffer _ _ :: rest => attribPointers rest
  | GLCall.glEnableVertexAttribArray _ :: rest => attribPointers rest
  | GLCall.glGenTextures _ :: rest => attribPointers rest
  | GLCall.glBindTexture _ :: rest => attribPointers rest
  | GLCall.glTexImage2D _ _ _ _ _ :: rest => attribPointers rest
  | GLCall.glTexParameteri _ _ :: rest => attribPointers rest
  | GLCall.glGenFramebuffers _ :: rest => attribPointers rest
  | GLCall.glBindFramebuffer _ :: rest => attribPointers rest
  | GLCall.glFramebufferTexture _ _ :: rest => attribPointers rest
  | GLCall.glDrawBuffers _ :: rest => attribPointers rest
  | GLCall.glCheckFramebufferStatus :: rest => attribPointers rest
  | GLCall.glClearColor _ :: rest => attribPointers rest
  | GLCall.glClear :: rest => attribPointers rest
  | GLCall.glViewport _ _ _ _ :: rest => attribPointers rest
  | GLCall.glUseProgram _ :: rest => attribPointers rest
  | GLCall.glBindBufferRange _ _ _ _ :: rest => attribPointers rest
  | GLCall.glActiveTexture _ :: rest => attribPointers rest
  | GLCall.glUniform1i _ _ :: rest => attribPointers rest
  | GLCall.glDrawElements _ _ _ :: rest => attribPointers rest

/-- The pointer `FindVAO` configures for a matched submesh attribute. -/
def pointerOf (Submesh : SubMesh) (a : VertexBufferAttribute) : AttribPointer :=
  { index := a.location, ncomp := a.componentCount, type := ComponentType.GL_FLOAT,
    stride := Submesh.vertexBufferLayout.stride,
    offset := (a.offset + Submesh.vertexOffset) % 2 ^ 32 }

/-- The mesh with the attribute list of submesh `submeshIndex` replaced. -/
def withSubmeshAttributes (mesh : Mesh) (submeshIndex : Nat) (Submesh : SubMesh)
    (attrs : List VertexBufferAttribute) : Mesh :=
  let layout : VertexBufferLayout :=
    { attributes := attrs, stride := Submesh.vertexBufferLayout.stride }
  let Submesh1 : SubMesh := { Submesh with vertexBufferLayout := layout }
  { mesh with submeshes := mesh.submeshes.set submeshIndex Submesh1 }

/-- The program with its shader attribute list replaced. -/
def withShaderAttributes (program : Program) (attrs : List VertexShaderAttribute) : Program :=
  { program with shaderLayout := { attributes := attrs } }

/-! ## The scene store: vectors, matrices, entities and lights

Floating-point numbers are an abstract type `F`; the functions of the glm library and the
float arithmetic the code uses are the fields of `Glm F`. -/

/-- The vector `glm::vec3`. -/
structure vec3 (F : Type) where
  x : F
  y : F
  z : F
deriving DecidableEq, Repr

/-- The vector `glm::vec4`. -/
structure vec4 (F : Type) where
  x : F
  y : F
  z : F
  w : F
deriving DecidableEq, Repr

/-- The matrix `glm::mat4`, as its four columns. -/
structure mat4 (F : Type) where
  c0 : vec4 F
  c1 : vec4 F
  c2 : vec4 F
  c3 : vec4 F
deriving DecidableEq, Repr

/-- The constructor `vec3(s)`: the same scalar in the three components. -/
def vec3.splat {F : Type} (s : F) : vec3 F := { x := s, y := s, z := s }

/-- The glm functions and float operations used by the code; they are external to the
repository and stay uninterpreted. -/
structure Glm (F : Type) where
  translate : vec3 F → mat4 F
  scale : mat4 F → vec3 F → mat4 F
  perspective : F → F → F → F → mat4 F
  radians : F → F
  lookAt : vec3 F → vec3 F → vec3 F → mat4 F
  cross : vec3 F → vec3 F → vec3 F
  normalize : vec3 F → vec3 F
  matMul : mat4 F → mat4 F → mat4 F
  vecAdd : vec3 F → vec3 F → vec3 F
  vecSub : vec3 F → vec3 F → vec3 F
  scalarMulVec : F → vec3 F → vec3 F
  vecMulScalar : vec3 F → F → vec3 F
  floatMul : F → F → F
  floatDiv : F → F → F
  intToFloat : Int → F

/-- Kinds of light (`LightType`). -/
inductive LightType where
  | LightType_Directional
  | LightType_Point
deriving DecidableEq, Repr

/-- A light: kind, color, direction, position, and the index of the entity that shows it. -/
structure Light (F : Type) where
  type : LightType
  color : vec3 F
  direction : vec3 F
  position : vec3 F
  visualRef : Nat
deriving DecidableEq, Repr

/-- An entity: world matrix, model index, and its block in the uniform buffer. -/
structure Entity (F : Type) where
  worldMatrix : mat4 F
  modelIndex : Nat
  localParamsOffset : Nat
  localParamsSize : Nat
deriving DecidableEq, Repr

/-- Render modes (`Mode`), in the order of the labels of `Gui`. -/
inductive Mode where
  | Mode_Forward
  | Mode_Deferred
  | Mode_Depth
  | Mode_Normals
deriving DecidableEq, Repr

/-- A value written into the uniform buffer. -/
inductive Cell (F : Type) where
  | uint (value : Nat)
  | lightType (value : LightType)
  | vec3 (value : vec3 F)
  | mat4 (value : mat4 F)
deriving DecidableEq, Repr

/-- Modelled from the spec: the uniform arena `Buffer` of `BufferSuppFunctions.h`, which is
not among the source files: a byte region with a capacity `size` and a write cursor `head`.
`data` lists the values written so far with their byte offsets, oldest first. -/
structure Buffer (F : Type) where
  handle : Nat
  size : Nat
  head : Nat
  data : List (Nat × Cell F)
  mapped : Bool
deriving DecidableEq, Repr

/-- The fields of `App` used by the scene store, the uniform packing, the framebuffer
construction and the render passes. The resource tables start empty and the program indices
at 0, as in `engine.h`. `texturedMeshProgram_uTexture` holds a uniform location, the value
`glGetUniformLocation` returned, which `RenderGeometry` hands back to `glUniform1i`. -/
structure App (F : Type) where
  deltaTime : F
  displaySize : Int × Int
  mode : Mode
  maxUniformBufferSize : Nat
  uniformBlockAlignment : Nat
  localUniformBuffer : Buffer F
  entities : List (Entity F)
  lights : List (Light F)
  globalParamsOffset : Nat
  globalParamsSize : Nat
  camFront : vec3 F
  cameraPosition : vec3 F
  useDepth : Bool
  useNormal : Bool
  textures : List Texture := []
  materials : List Material := []
  meshes : List Mesh := []
  models : List Model := []
  programs : List Program := []
  renderToBackBufferShader : Nat := 0
  renderToFrameBufferShader : Nat := 0
  framebufferToQuadShader : Nat := 0
  texturedMeshProgram_uTexture : Int := 0
  vao : Nat := 0
  deferredFrameBuffer : FrameBuffer := { fbHandle := 0, colorAttachment := [], depthHandle := 0 }
deriving DecidableEq, Repr

/-- Model of `glm::mat4 TransformPositionScale(const vec3& position, const vec3& scaleFactors)`. -/
def TransformPositionScale {F : Type} (glm : Glm F) (position scaleFactors : vec3 F) : mat4 F :=
  let ReturnValue := glm.translate position
  glm.scale ReturnValue scaleFactors

/-- Assignment `lights[lights.size() - 1].visualRef = visualRef`. -/
def setLastVisualRef {F : Type} (lights : List (Light F)) (visualRef : Nat) : List (Light F) :=
  lights.modify (fun light => { light with visualRef := visualRef }) (lights.length - 1)

/-- Model of `void App::AddPointLight(u32 modelIndex, vec3 position, vec3 lightcolor)`. -/
def App.AddPointLight {F : Type} [OfScientific F] (glm : Glm F) (app : App F) (modelIndex : Nat)
    (position lightcolor : vec3 F) : App F :=
  let light : Light F :=
    { type := LightType.LightType_Point, color := lightcolor,
      direction := { x := 1.0, y := 1.0, z := 1.0 }, position := position, visualRef := 0 }
  let entities := app.entities ++
    [{ worldMatrix := TransformPositionScale glm position (vec3.splat 0.15),
       modelIndex := modelIndex, localParamsOffset := 0, localParamsSize := 0 }]
  let lights := app.lights ++ [light]
  { app with entities := entities, lights := setLastVisualRef lights (entities.length - 1) }

/-- Model of `void App::AddDirectionalLight(u32 modelIndex, vec3 position, vec3 direction,
vec3 lightcolor)`. -/
def App.AddDirectionalLight {F : Type} [OfScientific F] (glm : Glm F) (app : App F)
    (modelIndex : Nat) (position direction lightcolor : vec3 F) : App F :=
  let lights := app.lights ++
    [{ type := LightType.LightType_Directional, color := lightcolor, direction := direction,
       position := position, visualRef := 0 }]
  let entities := app.entities ++
    [{ worldMatrix := TransformPositionScale glm position (vec3.splat 0.15),
       modelIndex := modelIndex, localParamsOffset := 0, localParamsSize := 0 }]
  { app with entities := entities, lights := setLastVisualRef lights (entities.length - 1) }

/-- One call that adds a light, with its arguments. -/
inductive AddLightCall (F : Type) where
  | point (modelIndex : Nat) (position lightcolor : vec3 F)
  | directional (modelIndex : Nat) (position direction lightcolor : vec3 F)

/-- The scene after one call. -/
def App.addLight {F : Type} [OfScientific F] (glm : Glm F) (app : App F) :
    AddLightCall F → App F
  | AddLightCall.point modelIndex position lightcolor =>
      app.AddPointLight glm modelIndex position lightcolor
  | AddLightCall.directional modelIndex position direction lightcolor =>
      app.AddDirectionalLight glm modelIndex position direction lightcolor

/-- The scene after a sequence of calls, applied first to last. -/
def App.addLights {F : Type} [OfScientific F] (glm : Glm F) (app : App F)
    (calls : List (AddLightCall F)) : App F :=
  calls.foldl (App.addLight glm) app

/-! ## The uniform buffer packer (`BufferSuppFunctions.h`, not among the source files) -/

/-- Modelled from the spec: rounding `value` up to the next multiple of a power-of-two
`alignment` ("alignment requests round the cursor up to the next multiple of a given
power-of-two boundary"); `BufferSuppFunctions.h` is missing. -/
def alignUp (value alignment : Nat) : Nat :=
  (value + alignment - 1) / alignment * alignment

/-- Modelled from the spec: `BufferManager::AlignHead` of the missing
`BufferSuppFunctions.h`, which rounds the head up to the next multiple of the alignment. -/
def AlignHead {F : Type} (buffer : Buffer F) (alignment : Nat) : Buffer F :=
  { buffer with head := alignUp buffer.head alignment }

/-- Modelled from the spec: the write behind the missing `PushUInt`, `PushVec3` and
`PushMat4` ("append a scalar/vector/matrix value at the current cursor, advancing it by the
value's size"). -/
def PushData {F : Type} (buffer : Buffer F) (value : Cell F) (size : Nat) : Buffer F :=
  { buffer with data := buffer.data ++ [(buffer.head, value)], head := buffer.head + size }

/-- Modelled from the spec: byte size of a written value, the missing `sizeof` of the
pushed type: a 32-bit unsigned integer, three floats, sixteen floats. -/
def Cell.size {F : Type} : Cell F → Nat
  | Cell.uint _ => 4
  | Cell.lightType _ => 4
  | Cell.vec3 _ => 12
  | Cell.mat4 _ => 64

/-- Modelled from the spec: the missing `PushUInt(buffer, value)`. -/
def PushUInt {F : Type} (buffer : Buffer F) (value : Nat) : Buffer F :=
  PushData buffer (Cell.uint value) (Cell.uint value : Cell F).size

/-- Modelled from the spec: the missing `PushUInt(buffer, value)` for a `LightType` value. -/
def PushLightType {F : Type} (buffer : Buffer F) (value : LightType) : Buffer F :=
  PushData buffer (Cell.lightType value) (Cell.lightType value : Cell F).size

/-- Modelled from the spec: the missing `PushVec3(buffer, value)`. -/
def PushVec3 {F : Type} (buffer : Buffer F) (value : vec3 F) : Buffer F :=
  PushData buffer (Cell.vec3 value) (Cell.vec3 value).size

/-- Modelled from the spec: the missing `PushMat4(buffer, value)`. -/
def PushMat4 {F : Type} (buffer : Buffer F) (value : mat4 F) : Buffer F :=
  PushData buffer (Cell.mat4 value) (Cell.mat4 value).size

/-- Modelled from the spec: the missing `BufferManager::MapBuffer`, which opens the write
session; the spec states no effect on the head. -/
def MapBuffer {F : Type} (buffer : Buffer F) : Buffer F :=
  { buffer with mapped := true }

/-- Modelled from the spec: the missing `BufferManager::UnmapBuffer`, which closes the
write session. -/
def UnmapBuffer {F : Type} (buffer : Buffer F) : Buffer F :=
  { buffer with mapped := false }

/-- Size in bytes of `glm::vec4` (`sizeof(vec4)`): four floats. -/
def sizeofVec4 : Nat := 16

/-- Keys polled by `HandleCameraInput`: whether `glfwGetKey` reports `GLFW_PRESS`. -/
structure Keys where
  W : Bool
  S : Bool
  A : Bool
  D : Bool
deriving DecidableEq, Repr

/-- Model of `void App::HandleCameraInput(vec3& yCam)`. -/
def App.HandleCameraInput {F : Type} [OfScientific F] (glm : Glm F) (keys : Keys) (app : App F)
    (yCam : vec3 F) : App F :=
  let cameraSpeed := glm.floatMul 2.05 app.deltaTime
  let p0 := app.cameraPosition
  let p1 := if keys.W then glm.vecAdd p0 (glm.scalarMulVec cameraSpeed app.camFront) else p0
  let p2 := if keys.S then glm.vecSub p1 (glm.scalarMulVec cameraSpeed app.camFront) else p1
  let p3 := if keys.A then
      glm.vecSub p2 (glm.vecMulScalar (glm.normalize (glm.cross app.camFront yCam)) cameraSpeed)
    else p2
  let p4 := if keys.D then
      glm.vecAdd p3 (glm.vecMulScalar (glm.normalize (glm.cross app.camFront yCam)) cameraSpeed)
    else p3
  { app with cameraPosition := p4 }

/-- The loop over the lights of `UpdateEntityBuffer` (lines 736-750).  A `visualRef` that
is no index of `entities` makes the subscript undefined: the run stops. -/
def pushLights {F : Type} [OfScientific F] (glm : Glm F) :
    List (Light F) → Buffer F → List (Entity F) → Except Failure (Buffer F × List (Entity F))
  | [], buffer, entities => Except.ok (buffer, entities)
  | light :: rest, buffer, entities =>
    let b0 := AlignHead buffer sizeofVec4
    if light.visualRef < entities.length then
      let entities1 := entities.modify
        (fun e => { e with worldMatrix :=
          TransformPositionScale glm light.position (vec3.splat 0.15) }) light.visualRef
      let b1 := PushLightType b0 light.type
      let b2 := PushVec3 b1 light.color
      let b3 := PushVec3 b2 light.direction
      let b4 := PushVec3 b3 light.position
      pushLights glm rest b4 entities1
    else Except.error Failure.visualRefOutOfRange

/-- The loop over the entities of `UpdateEntityBuffer` (lines 754-767). -/
def pushEntities {F : Type} (glm : Glm F) (projection view : mat4 F) (uniformBlockAlignment : Nat) :
    List (Entity F) → Buffer F → Buffer F × List (Entity F)
  | [], buffer => (buffer, [])
  | it :: rest, buffer =>
    let world := it.worldMatrix
    let WVP := glm.matMul (glm.matMul projection view) world
    let b0 := AlignHead buffer uniformBlockAlignment
    let localParamsOffset := b0.head
    let b1 := PushMat4 b0 world
    let b2 := PushMat4 b1 WVP
    let it1 := { it with localParamsOffset := localParamsOffset,
                         localParamsSize := b2.head - localParamsOffset }
    let r := pushEntities glm projection view uniformBlockAlignment rest b2
    (r.1, it1 :: r.2)

/-- Model of `void App::UpdateEntityBuffer()`. -/
def App.UpdateEntityBuffer {F : Type} [OfScientific F] (glm : Glm F) (keys : Keys) (app : App F) :
    Except Failure (App F) :=
  let aspectRatio := glm.floatDiv (glm.intToFloat app.displaySize.1)
    (glm.intToFloat app.displaySize.2)
  let znear : F := 0.1
  let zfar : F := 1000.0
  let projection := glm.perspective (glm.radians 60.0) aspectRatio znear zfar
  let xCam := glm.cross app.camFront { x := 0.0, y := 1.0, z := 0.0 }
  let yCam := glm.cross xCam app.camFront
  let app1 := app.HandleCameraInput glm keys yCam
  let view := glm.lookAt app1.cameraPosition (glm.vecAdd app1.cameraPosition app1.camFront) yCam
  let b0 := MapBuffer app1.localUniformBuffer
  let globalParamsOffset := b0.head
  let b1 := PushVec3 b0 app1.cameraPosition
  let b2 := PushUInt b1 app1.lights.length
  match pushLights glm app1.lights b2 app1.entities with
  | Except.error e => Except.error e
  | Except.ok (b3, entities1) =>
    let globalParamsSize := b3.head - globalParamsOffset
    let r := pushEntities glm projection view app1.uniformBlockAlignment entities1 b3
    Except.ok { app1 with localUniformBuffer := UnmapBuffer r.1, entities := r.2,
                          globalParamsOffset := globalParamsOffset,
                          globalParamsSize := globalParamsSize }

/-- Head of the buffer after `n` light records are packed from `head`: each record is
aligned to `sizeofVec4` and holds a kind and three vectors. -/
def lightsEnd (head : Nat) : Nat → Nat
  | 0 => head
  | n + 1 => lightsEnd (alignUp head sizeofVec4 + 40) n

/-- Sizes of `n` consecutive light records packed from `head`, each counted from the end of
what precedes it: its alignment padding and its 40 bytes. -/
def lightRecordSizes (head : Nat) : Nat → List Nat
  | 0 => []
  | n + 1 => (alignUp head sizeofVec4 + 40 - head) ::
      lightRecordSizes (alignUp head sizeofVec4 + 40) n

/-- Rational stand-in for the identity matrix. -/
def mat4.identity : mat4 Rat :=
  { c0 := ⟨1, 0, 0, 0⟩, c1 := ⟨0, 1, 0, 0⟩, c2 := ⟨0, 0, 1, 0⟩, c3 := ⟨0, 0, 0, 1⟩ }

/-- Product of a rational matrix and a column. -/
def mat4.mulVec (m : mat4 Rat) (v : vec4 Rat) : vec4 Rat :=
  { x := m.c0.x * v.x + m.c1.x * v.y + m.c2.x * v.z + m.c3.x * v.w,
    y := m.c0.y * v.x + m.c1.y * v.y + m.c2.y * v.z + m.c3.y * v.w,
    z := m.c0.z * v.x + m.c1.z * v.y + m.c2.z * v.z + m.c3.z * v.w,
    w := m.c0.w * v.x + m.c1.w * v.y + m.c2.w * v.z + m.c3.w * v.w }

/-- Scaling of a rational column. -/
def vec4.smul (v : vec4 Rat) (s : Rat) : vec4 Rat :=
  { x := v.x * s, y := v.y * s, z := v.z * s, w := v.w * s }

/-- A stand-in for glm over the rationals on which the model is run in the examples.
The algebraic functions follow glm; `perspective`, `radians`, `lookAt` and `normalize`,
which need square roots and tangents, are simple rational placeholders. No theorem
depends on it: the theorems hold for every `Glm F`. -/
def sampleGlm : Glm Rat :=
  { translate := fun p => { mat4.identity with c3 := ⟨p.x, p.y, p.z, 1⟩ },
    scale := fun m v => { c0 := m.c0.smul v.x, c1 := m.c1.smul v.y, c2 := m.c2.smul v.z,
                          c3 := m.c3 },
    perspective := fun _ aspect _ _ =>
      { mat4.identity with c0 := ⟨1 / aspect, 0, 0, 0⟩ },
    radians := fun d => d * 355 / (113 * 180),
    lookAt := fun eye _ _ => { mat4.identity with c3 := ⟨-eye.x, -eye.y, -eye.z, 1⟩ },
    cross := fun a b =>
      { x := a.y * b.z - b.y * a.z, y := a.z * b.x - b.z * a.x, z := a.x * b.y - b.x * a.y },
    normalize := fun v => v,
    matMul := fun a b =>
      { c0 := a.mulVec b.c0, c1 := a.mulVec b.c1, c2 := a.mulVec b.c2, c3 := a.mulVec b.c3 },
    vecAdd := fun a b => { x := a.x + b.x, y := a.y + b.y, z := a.z + b.z },
    vecSub := fun a b => { x := a.x - b.x, y := a.y - b.y, z := a.z - b.z },
    scalarMulVec := fun s v => { x := s * v.x, y := s * v.y, z := s * v.z },
    vecMulScalar := fun v s => { x := v.x * s, y := v.y * s, z := v.z * s },
    floatMul := fun a b => a * b,
    floatDiv := fun a b => a / b,
    intToFloat := fun i => i }

/-- No key pressed. -/
def noKeys : Keys := { W := false, S := false, A := false, D := false }

/-- A scene without entities and lights, its uniform buffer empty. -/
def emptyScene : App Rat :=
  { deltaTime := 1 / 60,
    displaySize := (800, 600),
    mode := Mode.Mode_Deferred,
    maxUniformBufferSize := 65536,
    uniformBlockAlignment := 256,
    localUniformBuffer := { handle := 1, size := 65536, head := 0, data := [], mapped := false },
    entities := [],
    lights := [],
    globalParamsOffset := 0,
    globalParamsSize := 0,
    camFront := { x := 0, y := 0, z := -1 },
    cameraPosition := { x := 0, y := 0, z := 0 },
    useDepth := false,
    useNormal := false }

/-- Two point lights, as `Init` adds them. -/
def twoPointLights : List (AddLightCall Rat) :=
  [AddLightCall.point 2 { x := 2, y := 1, z := 1 } { x := 0, y := 1, z := 0 },
   AddLightCall.point 2 { x := -2, y := 1, z := 1 } { x := 0, y := 1, z := 0 }]

/-! ## Example data -/

/-- The vertex layout built in `Init`: position at location 0, texture coordinates at
location 2 (`3 * sizeof(float)` is 12, `5 * sizeof(float)` is 20). -/
def quadLayout : VertexBufferLayout :=
  { attributes := [{ location := 0, componentCount := 3, offset := 0 },
                   { location := 2, componentCount := 2, offset := 12 }],
    stride := 20 }

/-- A submesh with that layout and the given cache. -/
def quadSubMesh (vaos : List VAO) : SubMesh :=
  { vertexBufferLayout := quadLayout, vertexOffset := 0, indexOffset := 0, vaos := vaos }

/-- A mesh with that one submesh. -/
def quadMesh (vaos : List VAO) : Mesh :=
  { submeshes := [quadSubMesh vaos], vertexBufferHandle := 1, indexBufferHandle := 2 }

/-- A program that reads locations 0 and 2. -/
def forwardProgram : Program :=
  { handle := 3, shaderLayout := { attributes := [{ location := 0, componentCount := 3 },
                                                    { location := 2, componentCount := 2 }] } }

/-- Another program that reads locations 2 and 0. -/
def deferredProgram : Program :=
  { handle := 6, shaderLayout := { attributes := [{ location := 2, componentCount := 2 },
                                                    { location := 0, componentCount := 3 }] } }

/-- The calls by which `FindVAO` builds the vertex array `name` of the quad mesh for
`forwardProgram`. -/
def quadForwardCalls (name : Nat) : List GLCall :=
  [GLCall.glGenVertexArrays name, GLCall.glBindVertexArray name,
   GLCall.glBindBuffer BufferTarget.GL_ARRAY_BUFFER 1,
   GLCall.glBindBuffer BufferTarget.GL_ELEMENT_ARRAY_BUFFER 2,
   GLCall.glVertexAttribPointer 0 3 ComponentType.GL_FLOAT false 20 0,
   GLCall.glEnableVertexAttribArray 0,
   GLCall.glVertexAttribPointer 2 2 ComponentType.GL_FLOAT false 20 12,
   GLCall.glEnableVertexAttribArray 2,
   GLCall.glBindVertexArray 0]

/-- The calls by which `FindVAO` builds the vertex array `name` of the quad mesh when the
shader attributes are visited in the order 2, 0. -/
def quadReversedCalls (name : Nat) : List GLCall :=
  [GLCall.glGenVertexArrays name, GLCall.glBindVertexArray name,
   GLCall.glBindBuffer BufferTarget.GL_ARRAY_BUFFER 1,
   GLCall.glBindBuffer BufferTarget.GL_ELEMENT_ARRAY_BUFFER 2,
   GLCall.glVertexAttribPointer 2 2 ComponentType.GL_FLOAT false 20 12,
   GLCall.glEnableVertexAttribArray 2,
   GLCall.glVertexAttribPointer 0 3 ComponentType.GL_FLOAT false 20 0,
   GLCall.glEnableVertexAttribArray 0,
   GLCall.glBindVertexArray 0]

/-- The attributes of `quadLayout`, last first. -/
def quadAttributesReversed : List VertexBufferAttribute :=
  [{ location := 2, componentCount := 2, offset := 12 },
   { location := 0, componentCount := 3, offset := 0 }]

/-! ## Vocabulary for the statements about the uniform buffer -/

/-- The four values of one light record, in the order in which they are pushed. -/
def lightRecord {F : Type} (light : Light F) : List (Cell F) :=
  [Cell.lightType light.type, Cell.vec3 light.color, Cell.vec3 light.direction,
   Cell.vec3 light.position]

/-- The values pushed for the lights from `head` on, with their byte offsets. -/
def lightCells {F : Type} : Nat → List (Light F) → List (Nat × Cell F)
  | _, [] => []
  | head, light :: rest =>
    [(alignUp head sizeofVec4, Cell.lightType light.type),
     (alignUp head sizeofVec4 + 4, Cell.vec3 light.color),
     (alignUp head sizeofVec4 + 16, Cell.vec3 light.direction),
     (alignUp head sizeofVec4 + 28, Cell.vec3 light.position)] ++
      lightCells (alignUp head sizeofVec4 + 40) rest

/-- The entities after the loop over the lights: the world matrix of the entity each light
refers to is overwritten, in light order. -/
def overwriteWorldMatrices {F : Type} [OfScientific F] (glm : Glm F) :
    List (Light F) → List (Entity F) → List (Entity F)
  | [], entities => entities
  | light :: rest, entities =>
    overwriteWorldMatrices glm rest
      (entities.modify
        (fun e =>
          { e with worldMatrix := TransformPositionScale glm light.position (vec3.splat 0.15) })
        light.visualRef)

/-- Head of the buffer after `n` entity blocks are packed from `head` with alignment `a`. -/
def entitiesEnd (a head : Nat) : Nat → Nat
  | 0 => head
  | n + 1 => entitiesEnd a (alignUp head a + 128) n

/-- The values pushed for the entities from `head` on, with their byte offsets. -/
def entityCells {F : Type} (glm : Glm F) (projection view : mat4 F) (a : Nat) :
    Nat → List (Entity F) → List (Nat × Cell F)
  | _, [] => []
  | head, it :: rest =>
    [(alignUp head a, Cell.mat4 it.worldMatrix),
     (alignUp head a + 64, Cell.mat4 (glm.matMul (glm.matMul projection view) it.worldMatrix))] ++
      entityCells glm projection view a (alignUp head a + 128) rest

/-- The entities with the blocks that the loop over the entities records from `head` on. -/
def placeEntities {F : Type} (a : Nat) : Nat → List (Entity F) → List (Entity F)
  | _, [] => []
  | head, it :: rest =>
    { it with localParamsOffset := alignUp head a, localParamsSize := 128 } ::
      placeEntities a (alignUp head a + 128) rest

/-- The vector `yCam` that `UpdateEntityBuffer` computes from `camFront`. -/
def App.yCam {F : Type} [OfScientific F] (glm : Glm F) (app : App F) : vec3 F :=
  glm.cross (glm.cross app.camFront { x := 0.0, y := 1.0, z := 0.0 }) app.camFront

/-- The camera position after `HandleCameraInput` has applied the pressed keys. -/
def App.cameraAfterInput {F : Type} [OfScientific F] (glm : Glm F) (keys : Keys) (app : App F) :
    vec3 F :=
  (app.HandleCameraInput glm keys (app.yCam glm)).cameraPosition

/-- The matrix `projection` of `UpdateEntityBuffer`. -/
def App.projectionMatrix {F : Type} [OfScientific F] (glm : Glm F) (app : App F) : mat4 F :=
  glm.perspective (glm.radians 60.0)
    (glm.floatDiv (glm.intToFloat app.displaySize.1) (glm.intToFloat app.displaySize.2)) 0.1 1000.0

/-- The matrix `view` of `UpdateEntityBuffer`. -/
def App.viewMatrix {F : Type} [OfScientific F] (glm : Glm F) (keys : Keys) (app : App F) :
    mat4 F :=
  glm.lookAt (app.cameraAfterInput glm keys)
    (glm.vecAdd (app.cameraAfterInput glm keys) app.camFront) (app.yCam glm)

/-- A scene with one entity that shows no light, its uniform buffer empty. -/
def groundScene : App Rat :=
  { emptyScene with
    entities := [{ worldMatrix := mat4.identity, modelIndex := 1, localParamsOffset := 0,
                   localParamsSize := 0 }] }

/-- Value of `GL_COLOR_ATTACHMENT0` (`0x8CE0`). -/
def GL_COLOR_ATTACHMENT0 : Nat := 36064

/-- Value of `GL_DEPTH_ATTACHMENT` (`0x8D00`). -/
def GL_DEPTH_ATTACHMENT : Nat := 36096

/-- Value of `GL_FRAMEBUFFER_COMPLETE` (`0x8CD5`). -/
def GL_FRAMEBUFFER_COMPLETE : Nat := 36053

/-- Whether a call is `glGenTextures`. -/
def GLCall.isGenTextures : GLCall → Bool
  | GLCall.glGenTextures _ => true
  | _ => false

/-- Whether a call is `glGenFramebuffers`. -/
def GLCall.isGenFramebuffers : GLCall → Bool
  | GLCall.glGenFramebuffers _ => true
  | _ => false

/-- How many texture names the context has handed out. -/
def GLState.textureCount (gl : GLState) : Nat :=
  gl.calls.countP GLCall.isGenTextures

/-- How many framebuffer names the context has handed out. -/
def GLState.framebufferCount (gl : GLState) : Nat :=
  gl.calls.countP GLCall.isGenFramebuffers

/-- Effect of `glGenTextures(1, &name)`: the next unused name, which is never zero. -/
def glGenTextures (gl : GLState) : GLState × Nat :=
  (gl.call (GLCall.glGenTextures (gl.textureCount + 1)), gl.textureCount + 1)

/-- Effect of `glGenFramebuffers(1, &name)`: the next unused name, which is never zero. -/
def glGenFramebuffers (gl : GLState) : GLState × Nat :=
  (gl.call (GLCall.glGenFramebuffers (gl.framebufferCount + 1)), gl.framebufferCount + 1)

/-- The five `glTexParameteri` calls and the unbinding that end `CreateTexture` and
`CreateDepthAttachment`. -/
def setTextureParameters (gl : GLState) : GLState :=
  let gl := gl.call (GLCall.glTexParameteri TextureParameter.GL_TEXTURE_MIN_FILTER
    TextureParameterValue.GL_NEAREST)
  let gl := gl.call (GLCall.glTexParameteri TextureParameter.GL_TEXTURE_MAG_FILTER
    TextureParameterValue.GL_NEAREST)
  let gl := gl.call (GLCall.glTexParameteri TextureParameter.GL_TEXTURE_WRAP_R
    TextureParameterValue.GL_CLAMP_TO_EDGE)
  let gl := gl.call (GLCall.glTexParameteri TextureParameter.GL_TEXTURE_WRAP_S
    TextureParameterValue.GL_CLAMP_TO_EDGE)
  let gl := gl.call (GLCall.glTexParameteri TextureParameter.GL_TEXTURE_WRAP_T
    TextureParameterValue.GL_CLAMP_TO_EDGE)
  gl.call (GLCall.glBindTexture 0)

/-- Model of `const GLuint App::CreateTexture(const bool isFloatingPoint)`: the context after
the call and the returned texture name. -/
def App.CreateTexture {F : Type} (app : App F) (isFloatingPoint : Bool) (gl : GLState) :
    GLState × Nat :=
  let internalFormat :=
    if isFloatingPoint then InternalFormat.GL_RGBA16F else InternalFormat.GL_RGBA8
  let format := PixelFormat.GL_RGBA
  let dataType := if isFloatingPoint then PixelType.GL_FLOAT else PixelType.GL_UNSIGNED_BYTE
  let gen := glGenTextures gl
  let textureHandle := gen.2
  let gl := gen.1.call (GLCall.glBindTexture textureHandle)
  let gl := gl.call
    (GLCall.glTexImage2D internalFormat app.displaySize.1 app.displaySize.2 format dataType)
  (setTextureParameters gl, textureHandle)

/-- Model of `void App::CreateDepthAttachment(GLuint& depthAttachmentHandle)`: the context
after the call and the name stored into `depthAttachmentHandle`. -/
def App.CreateDepthAttachment {F : Type} (app : App F) (gl : GLState) : GLState × Nat :=
  let gen := glGenTextures gl
  let depthAttachmentHandle := gen.2
  let gl := gen.1.call (GLCall.glBindTexture depthAttachmentHandle)
  let gl := gl.call
    (GLCall.glTexImage2D InternalFormat.GL_DEPTH_COMPONENT24 app.displaySize.1
      app.displaySize.2 PixelFormat.GL_DEPTH_COMPONENT PixelType.GL_FLOAT)
  (setTextureParameters gl, depthAttachmentHandle)

/-- The loop of `ConfigureFrameBuffer` (lines 241-246), from index `i` on: every colour
attachment of the record is attached at `GL_COLOR_ATTACHMENT0 + i`, a `GLuint`, and that
point is pushed on `drawBuffers`. -/
def attachColorAttachments :
    Nat → List Nat → GLState → List Nat → GLState × List Nat
  | _, [], gl, drawBuffers => (gl, drawBuffers)
  | i, texture :: rest, gl, drawBuffers =>
    let position := (GL_COLOR_ATTACHMENT0 + i) % 2 ^ 32
    attachColorAttachments (i + 1) rest
      (gl.call (GLCall.glFramebufferTexture position texture)) (drawBuffers ++ [position])

/-- Model of `void App::ConfigureFrameBuffer(FrameBuffer& aConfigFB)`: the record and the
context after the call. `framebufferStatus` is the value `glCheckFramebufferStatus` returns
to the call. -/
def App.ConfigureFrameBuffer {F : Type} (app : App F) (framebufferStatus : Nat)
    (aConfigFB : FrameBuffer) (gl : GLState) : FrameBuffer × GLState :=
  let t0 := app.CreateTexture false gl
  let aConfigFB := { aConfigFB with colorAttachment := aConfigFB.colorAttachment ++ [t0.2] }
  let t1 := app.CreateTexture true t0.1
  let aConfigFB := { aConfigFB with colorAttachment := aConfigFB.colorAttachment ++ [t1.2] }
  let t2 := app.CreateTexture true t1.1
  let aConfigFB := { aConfigFB with colorAttachment := aConfigFB.colorAttachment ++ [t2.2] }
  let t3 := app.CreateTexture true t2.1
  let aConfigFB := { aConfigFB with colorAttachment := aConfigFB.colorAttachment ++ [t3.2] }
  let depth := app.CreateDepthAttachment t3.1
  let aConfigFB := { aConfigFB with depthHandle := depth.2 }
  let gen := glGenFramebuffers depth.1
  let aConfigFB := { aConfigFB with fbHandle := gen.2 }
  let gl := gen.1.call (GLCall.glBindFramebuffer aConfigFB.fbHandle)
  let attached := attachColorAttachments 0 aConfigFB.colorAttachment gl []
  let drawBuffers := attached.2
  let gl := attached.1.call
    (GLCall.glFramebufferTexture GL_DEPTH_ATTACHMENT aConfigFB.depthHandle)
  let gl := gl.call (GLCall.glDrawBuffers drawBuffers)
  let gl := gl.call GLCall.glCheckFramebufferStatus
  let gl := if framebufferStatus ≠ GL_FRAMEBUFFER_COMPLETE then gl else gl
  (aConfigFB, gl.call (GLCall.glBindFramebuffer 0))

/-! ## Vocabulary for the statements about the framebuffer construction -/

/-- The calls by which `CreateTexture` and `CreateDepthAttachment` build the texture `name`
with the given image. -/
def textureCalls (name : Nat) (internalFormat : InternalFormat) (displaySize : Int × Int)
    (format : PixelFormat) (type : PixelType) : List GLCall :=
  [GLCall.glGenTextures name, GLCall.glBindTexture name,
   GLCall.glTexImage2D internalFormat displaySize.1 displaySize.2 format type,
   GLCall.glTexParameteri TextureParameter.GL_TEXTURE_MIN_FILTER
     TextureParameterValue.GL_NEAREST,
   GLCall.glTexParameteri TextureParameter.GL_TEXTURE_MAG_FILTER
     TextureParameterValue.GL_NEAREST,
   GLCall.glTexParameteri TextureParameter.GL_TEXTURE_WRAP_R
     TextureParameterValue.GL_CLAMP_TO_EDGE,
   GLCall.glTexParameteri TextureParameter.GL_TEXTURE_WRAP_S
     TextureParameterValue.GL_CLAMP_TO_EDGE,
   GLCall.glTexParameteri TextureParameter.GL_TEXTURE_WRAP_T
     TextureParameterValue.GL_CLAMP_TO_EDGE,
   GLCall.glBindTexture 0]

/-- Record a sequence of calls in the context. -/
def GLState.callAll (gl : GLState) (cs : List GLCall) : GLState :=
  { gl with calls := gl.calls ++ cs }

/-- An OpenGL context in which nothing was called yet. -/
def freshContext : GLState := { vaoCount := 0, calls := [] }

/-- A framebuffer record as `App` holds it before `Init`: no attachment. -/
def freshFrameBuffer : FrameBuffer := { fbHandle := 0, colorAttachment := [], depthHandle := 0 }

/-! ## engine.cpp : Gui, Render and RenderGeometry -/

/-- What the render passes take from outside the three source files: the macro `BINDING`
of `Globals.h`, and the answers of the OpenGL query `glGetUniformLocation`, by program
handle and uniform name. -/
structure Externals where
  BINDING : Nat → Nat
  glGetUniformLocation : Nat → String → Int

/-- The body of the loop over the submeshes in `RenderGeometry` (lines 649-663), for the
indices listed: `FindVAO` resolves the vertex array, the albedo texture of the material is
bound on unit 0, and the index range of the submesh is drawn. -/
def renderSubmeshes {F : Type} (app : App F) (aBindedProgram : Program) (model : Model) :
    List Nat → Mesh → GLState → Except Failure (Mesh × GLState)
  | [], mesh, gl => Except.ok (mesh, gl)
  | i :: rest, mesh, gl =>
    match FindVAO gl mesh i aBindedProgram with
    | Except.error e => Except.error e
    | Except.ok (gl1, mesh1, vao) =>
      let gl2 := gl1.call (GLCall.glBindVertexArray vao)
      match model.materialIdx[i]? with
      | none => Except.error Failure.subscriptOutOfRange
      | some subMeshmaterialIdx =>
        match app.materials[subMeshmaterialIdx]? with
        | none => Except.error Failure.subscriptOutOfRange
        | some subMeshMaterial =>
          let gl3 := gl2.call (GLCall.glActiveTexture 0)
          match app.textures[subMeshMaterial.albedoTextureIdx]? with
          | none => Except.error Failure.subscriptOutOfRange
          | some texture =>
            let gl4 := gl3.call (GLCall.glBindTexture texture.handle)
            let gl5 := gl4.call (GLCall.glUniform1i app.texturedMeshProgram_uTexture 0)
            match mesh1.submeshes[i]? with
            | none => Except.error Failure.submeshIndexOutOfRange
            | some submesh =>
              let gl6 := gl5.call (GLCall.glDrawElements submesh.indices.length
                IndexType.GL_UNSIGNED_INT submesh.indexOffset)
              renderSubmeshes app aBindedProgram model rest mesh1 gl6

/-- The loop over the entities in `RenderGeometry` (lines 640-665). The mesh is a reference
into `meshes`: what `FindVAO` stores in it stays in the application state. -/
def renderEntities {F : Type} (ext : Externals) (aBindedProgram : Program) :
    List (Entity F) → App F → GLState → Except Failure (App F × GLState)
  | [], app, gl => Except.ok (app, gl)
  | it :: rest, app, gl =>
    let gl1 := gl.call (GLCall.glBindBufferRange (ext.BINDING 1) app.localUniformBuffer.handle
      it.localParamsOffset it.localParamsSize)
    match app.models[it.modelIndex]? with
    | none => Except.error Failure.subscriptOutOfRange
    | some model =>
      match app.meshes[model.meshIdx]? with
      | none => Except.error Failure.subscriptOutOfRange
      | some mesh =>
        match renderSubmeshes app aBindedProgram model (List.range mesh.submeshes.length)
            mesh gl1 with
        | Except.error e => Except.error e
        | Except.ok (mesh1, gl2) =>
          renderEntities ext aBindedProgram rest
            { app with meshes := app.meshes.set model.meshIdx mesh1 } gl2

/-- Model of `void App::RenderGeometry(const Program& aBindedProgram)`. -/
def App.RenderGeometry {F : Type} (ext : Externals) (app : App F) (aBindedProgram : Program)
    (gl : GLState) : Except Failure (App F × GLState) :=
  let gl1 := gl.call (GLCall.glBindBufferRange (ext.BINDING 0) app.localUniformBuffer.handle
    app.globalParamsOffset app.globalParamsSize)
  renderEntities ext aBindedProgram app.entities app gl1

/-- The first half of the cases `Mode_Depth`, `Mode_Normals` and `Mode_Deferred` of `Render`,
which have the same text (lines 450-465, 511-526, 572-587): the geometry pass into the
framebuffer of the record. -/
def geometryPass {F : Type} (ext : Externals) (app : App F) (gl : GLState) :
    Except Failure (App F × GLState) :=
  let gl := gl.call (GLCall.glClearColor ClearColor.darkGrey)
  let gl := gl.call GLCall.glClear
  let gl := gl.call (GLCall.glViewport 0 0 app.displaySize.1 app.displaySize.2)
  let gl := gl.call (GLCall.glBindFramebuffer app.deferredFrameBuffer.fbHandle)
  let gl := gl.call (GLCall.glDrawBuffers app.deferredFrameBuffer.colorAttachment)
  let gl := gl.call (GLCall.glClearColor ClearColor.transparentBlack)
  let gl := gl.call GLCall.glClear
  match app.programs[app.renderToFrameBufferShader]? with
  | none => Except.error Failure.subscriptOutOfRange
  | some DeferredProgram =>
    let gl := gl.call (GLCall.glUseProgram DeferredProgram.handle)
    match app.RenderGeometry ext DeferredProgram gl with
    | Except.error e => Except.error e
    | Except.ok (app1, gl1) => Except.ok (app1, gl1.call (GLCall.glBindFramebuffer 0))

/-- The second half of the cases `Mode_Depth`, `Mode_Normals` and `Mode_Deferred` of
`Render`, which have the same text (lines 467-503, 528-564, 589-625): the composition pass
to the back buffer. -/
def compositionPass {F : Type} (ext : Externals) (app : App F) (gl : GLState) :
    Except Failure GLState :=
  let gl := gl.call (GLCall.glClearColor ClearColor.darkGrey)
  let gl := gl.call GLCall.glClear
  let gl := gl.call (GLCall.glViewport 0 0 app.displaySize.1 app.displaySize.2)
  match app.programs[app.framebufferToQuadShader]? with
  | none => Except.error Failure.subscriptOutOfRange
  | some FBToBB =>
    let gl := gl.call (GLCall.glUseProgram FBToBB.handle)
    let gl := gl.call (GLCall.glBindBufferRange (ext.BINDING 0) app.localUniformBuffer.handle
      app.globalParamsOffset app.globalParamsSize)
    match app.deferredFrameBuffer.colorAttachment with
    | a0 :: a1 :: a2 :: a3 :: _ =>
      let gl := gl.call (GLCall.glActiveTexture 0)
      let gl := gl.call (GLCall.glBindTexture a0)
      let gl := gl.call (GLCall.glUniform1i (ext.glGetUniformLocation FBToBB.handle "uAlbedo") 0)
      let gl := gl.call (GLCall.glActiveTexture 1)
      let gl := gl.call (GLCall.glBindTexture a1)
      let gl := gl.call (GLCall.glUniform1i (ext.glGetUniformLocation FBToBB.handle "uNormals") 1)
      let gl := gl.call (GLCall.glActiveTexture 2)
      let gl := gl.call (GLCall.glBindTexture a2)
      let gl := gl.call
        (GLCall.glUniform1i (ext.glGetUniformLocation FBToBB.handle "uPosition") 2)
      let gl := gl.call (GLCall.glActiveTexture 3)
      let gl := gl.call (GLCall.glBindTexture a3)
      let gl := gl.call (GLCall.glUniform1i (ext.glGetUniformLocation FBToBB.handle "uViewDir") 3)
      let gl := gl.call (GLCall.glActiveTexture 4)
      let gl := gl.call (GLCall.glBindTexture app.deferredFrameBuffer.depthHandle)
      let gl := gl.call (GLCall.glUniform1i (ext.glGetUniformLocation FBToBB.handle "uDepth") 4)
      let gl := gl.call (GLCall.glUniform1i (ext.glGetUniformLocation FBToBB.handle "UseNormal")
        (if app.useNormal then 1 else 0))
      let gl := gl.call (GLCall.glUniform1i (ext.glGetUniformLocation FBToBB.handle "UseDepth")
        (if app.useDepth then 1 else 0))
      let gl := gl.call (GLCall.glBindVertexArray app.vao)
      let gl := gl.call (GLCall.glDrawElements 6 IndexType.GL_UNSIGNED_SHORT 0)
      let gl := gl.call (GLCall.glBindVertexArray 0)
      Except.ok (gl.call (GLCall.glUseProgram 0))
    | _ => Except.error Failure.subscriptOutOfRange

/-- Model of `void Render(App* app)`: the application state and the context after the call.
`keys` is the keyboard state `UpdateEntityBuffer` reads. -/
def Render {F : Type} [OfScientific F] (glm : Glm F) (keys : Keys) (ext : Externals)
    (app : App F) (gl : GLState) : Except Failure (App F × GLState) :=
  match app.mode with
  | Mode.Mode_Forward =>
    match app.UpdateEntityBuffer glm keys with
    | Except.error e => Except.error e
    | Except.ok app1 =>
      let gl := gl.call (GLCall.glBindFramebuffer 0)
      let gl := gl.call (GLCall.glClearColor ClearColor.darkGrey)
      let gl := gl.call GLCall.glClear
      let gl := gl.call (GLCall.glViewport 0 0 app1.displaySize.1 app1.displaySize.2)
      match app1.programs[app1.renderToBackBufferShader]? with
      | none => Except.error Failure.subscriptOutOfRange
      | some ForwardProgram =>
        let gl := gl.call (GLCall.glUseProgram ForwardProgram.handle)
        app1.RenderGeometry ext ForwardProgram gl
  | Mode.Mode_Depth =>
    match app.UpdateEntityBuffer glm keys with
    | Except.error e => Except.error e
    | Except.ok app1 =>
      match geometryPass ext app1 gl with
      | Except.error e => Except.error e
      | Except.ok (app2, gl1) =>
        match compositionPass ext app2 gl1 with
        | Except.error e => Except.error e
        | Except.ok gl2 => Except.ok (app2, gl2)
  | Mode.Mode_Normals =>
    match app.UpdateEntityBuffer glm keys with
    | Except.error e => Except.error e
    | Except.ok app1 =>
      match geometryPass ext app1 gl with
      | Except.error e => Except.error e
      | Except.ok (app2, gl1) =>
        match compositionPass ext app2 gl1 with
        | Except.error e => Except.error e
        | Except.ok gl2 => Except.ok (app2, gl2)
  | Mode.Mode_Deferred =>
    match app.UpdateEntityBuffer glm keys with
    | Except.error e => Except.error e
    | Except.ok app1 =>
      match geometryPass ext app1 gl with
      | Except.error e => Except.error e
      | Except.ok (app2, gl1) =>
        match compositionPass ext app2 gl1 with
        | Except.error e => Except.error e
        | Except.ok gl2 => Except.ok (app2, gl2)

/-- What `Gui` takes from ImGui in one frame: whether the combo box is open, which of its
entries was clicked, which light headers are open, and the edits made to the position and
the colour of a light. -/
structure ImGuiFrame (F : Type) where
  BeginCombo : Bool
  Selectable : Nat → Bool
  CollapsingHeader : Nat → Bool
  DragFloat3 : Nat → vec3 F → vec3 F
  ColorEdit3 : Nat → vec3 F → vec3 F

/-- The loop over the entries of the combo box in `Gui` (lines 353-377), for the indices
listed. `castMode` is `static_cast<Mode>(i)`. -/
def selectModes {F : Type} (castMode : Nat → Mode) (imgui : ImGuiFrame F) :
    List Nat → App F → App F
  | [], app => app
  | i :: rest, app =>
    if imgui.Selectable i then
      let app1 := { app with mode := castMode i }
      let app2 :=
        if app1.mode = Mode.Mode_Depth then
          { app1 with useDepth := true, useNormal := false }
        else if app1.mode = Mode.Mode_Normals then
          { app1 with useDepth := false, useNormal := true }
        else
          { app1 with useDepth := false, useNormal := false }
      selectModes castMode imgui rest app2
    else selectModes castMode imgui rest app

/-- The loop over the lights in `Gui` (lines 381-391), from index `i` on. -/
def editLights {F : Type} (imgui : ImGuiFrame F) : Nat → List (Light F) → List (Light F)
  | _, [] => []
  | i, light :: rest =>
    (if imgui.CollapsingHeader i then
      { light with position := imgui.DragFloat3 i light.position,
                   color := imgui.ColorEdit3 i light.color }
    else light) :: editLights imgui (i + 1) rest

/-- Model of `void Gui(App* app)`: the application state after the call; the text and
images it shows are left out. `RenderModes` has four entries. -/
def Gui {F : Type} (castMode : Nat → Mode) (imgui : ImGuiFrame F) (app : App F) : App F :=
  let app1 := if imgui.BeginCombo then selectModes castMode imgui [0, 1, 2, 3] app else app
  { app1 with lights := editLights imgui 0 app1.lights }

/-! ## Vocabulary for the statements about the render passes -/

/-- The two flags are as the mode selector of `Gui` sets them for the mode: `useDepth` in
mode `Mode_Depth` only, `useNormal` in mode `Mode_Normals` only. -/
def togglesMatchMode {F : Type} (app : App F) : Prop :=
  app.useDepth = decide (app.mode = Mode.Mode_Depth) ∧
    app.useNormal = decide (app.mode = Mode.Mode_Normals)

/-- The values the calls give to the uniform at `location`, in call order. -/
def uniformValues (location : Int) : List GLCall → List Int
  | [] => []
  | GLCall.glUniform1i l value :: rest =>
    if l = location then value :: uniformValues location rest else uniformValues location rest
  | _ :: rest => uniformValues location rest

/-- The calls of the composition pass of `Render` for the state `app`, the composition
program `FBToBB`, the first four colour attachments, and the values given to `UseNormal` and
`UseDepth`. -/
def compositionCalls {F : Type} (ext : Externals) (app : App F) (FBToBB : Program)
    (a0 a1 a2 a3 : Nat) (useNormal useDepth : Int) : List GLCall :=
  [GLCall.glClearColor ClearColor.darkGrey, GLCall.glClear,
   GLCall.glViewport 0 0 app.displaySize.1 app.displaySize.2,
   GLCall.glUseProgram FBToBB.handle,
   GLCall.glBindBufferRange (ext.BINDING 0) app.localUniformBuffer.handle
     app.globalParamsOffset app.globalParamsSize,
   GLCall.glActiveTexture 0, GLCall.glBindTexture a0,
   GLCall.glUniform1i (ext.glGetUniformLocation FBToBB.handle "uAlbedo") 0,
   GLCall.glActiveTexture 1, GLCall.glBindTexture a1,
   GLCall.glUniform1i (ext.glGetUniformLocation FBToBB.handle "uNormals") 1,
   GLCall.glActiveTexture 2, GLCall.glBindTexture a2,
   GLCall.glUniform1i (ext.glGetUniformLocation FBToBB.handle "uPosition") 2,
   GLCall.glActiveTexture 3, GLCall.glBindTexture a3,
   GLCall.glUniform1i (ext.glGetUniformLocation FBToBB.handle "uViewDir") 3,
   GLCall.glActiveTexture 4, GLCall.glBindTexture app.deferredFrameBuffer.depthHandle,
   GLCall.glUniform1i (ext.glGetUniformLocation FBToBB.handle "uDepth") 4,
   GLCall.glUniform1i (ext.glGetUniformLocation FBToBB.handle "UseNormal") useNormal,
   GLCall.glUniform1i (ext.glGetUniformLocation FBToBB.handle "UseDepth") useDepth,
   GLCall.glBindVertexArray app.vao,
   GLCall.glDrawElements 6 IndexType.GL_UNSIGNED_SHORT 0,
   GLCall.glBindVertexArray 0, GLCall.glUseProgram 0]

/-- A numbering of `Mode` under which the labels of `Gui` name the modes. -/
def modeOfIndex : Nat → Mode
  | 0 => Mode.Mode_Forward
  | 1 => Mode.Mode_Deferred
  | 2 => Mode.Mode_Depth
  | _ => Mode.Mode_Normals

/-- `BINDING` as the identity, and uniform locations in the order in which the composition
pass names the uniforms; a name that is none of them has location -1. -/
def sampleExternals : Externals :=
  { BINDING := fun b => b,
    glGetUniformLocation := fun _ name =>
      if name = "uAlbedo" then 0 else if name = "uNormals" then 1
      else if name = "uPosition" then 2 else if name = "uViewDir" then 3
      else if name = "uDepth" then 4 else if name = "UseNormal" then 5
      else if name = "UseDepth" then 6 else -1 }

/-- The composition program of the example scene. -/
def quadProgram : Program :=
  { handle := 9, shaderLayout := { attributes := [{ location := 0, componentCount := 3 }] } }

/-- A scene in mode `Mode_Deferred` with both flags clear, as `Init` leaves them: one entity
showing the quad mesh, three programs, and the G-buffer a first `ConfigureFrameBuffer`
builds. -/
def renderScene : App Rat :=
  { emptyScene with
    entities := [{ worldMatrix := mat4.identity, modelIndex := 0, localParamsOffset := 0,
                   localParamsSize := 0 }],
    textures := [{ handle := 7 }],
    materials := [{ albedoTextureIdx := 0 }],
    meshes := [quadMesh []],
    models := [{ meshIdx := 0, materialIdx := [0] }],
    programs := [forwardProgram, deferredProgram, quadProgram],
    renderToBackBufferShader := 0,
    renderToFrameBufferShader := 1,
    framebufferToQuadShader := 2,
    vao := 1,
    deferredFrameBuffer := { fbHandle := 1, colorAttachment := [1, 2, 3, 4], depthHandle := 5 } }

/-- The example scene with the mode set to `Mode_Depth` from outside `Gui`: the flags are
still clear. -/
def staleDepthScene : App Rat := { renderScene with mode := Mode.Mode_Depth }

/-- One frame of ImGui in which the entry `i` of the open combo box is clicked and no
light is edited. -/
def clickEntry (i : Nat) : ImGuiFrame Rat :=
  { BeginCombo := true,
    Selectable := fun j => decide (j = i),
    CollapsingHeader := fun _ => false,
    DragFloat3 := fun _ v => v,
    ColorEdit3 := fun _ v => v }

/-- The context after `Init` generated the vertex array of the screen quad; the earlier
calls are left out. -/
def sceneContext : GLState := { vaoCount := 1, calls := [] }

/-! ## Lemmas on the vertex-binding resolver -/

theorem linkAttribute_eq (Submesh : SubMesh) (loc : Nat) (attrs : List VertexBufferAttribute)
    (gl : GLState) :
    linkAttribute Submesh loc attrs gl =
      match firstMatch loc attrs with
      | some a => ({ gl with calls := gl.calls ++ linkCalls Submesh a }, true)
      | none => (gl, false) := by
  induction attrs with
  | nil => rfl
  | cons a rest ih =>
    by_cases h : loc = a.location
    · simp [linkAttribute, firstMatch, h, GLState.call, linkCalls]
    · simp only [linkAttribute, h, if_false, ih]
      simp [firstMatch, List.find?, h]

theorem linkLayout_eq (Submesh : SubMesh) (ss : List VertexShaderAttribute) (gl : GLState) :
    linkLayout Submesh ss gl =
      match firstMatches Submesh.vertexBufferLayout.attributes ss with
      | some ms => Except.ok { gl with calls := gl.calls ++ ms.flatMap (linkCalls Submesh) }
      | none => Except.error Failure.assertAttributeWasLinked := by
  induction ss generalizing gl with
  | nil => simp [linkLayout, firstMatches]
  | cons s rest ih =>
    simp only [linkLayout, linkAttribute_eq, firstMatches]
    cases h1 : firstMatch s.location Submesh.vertexBufferLayout.attributes with
    | none => simp
    | some a =>
      simp only [ih]
      cases h2 : firstMatches Submesh.vertexBufferLayout.attributes rest with
      | none => simp
      | some ms => simp [List.flatMap_cons, List.append_assoc]

theorem FindVAO_hit {gl : GLState} {mesh : Mesh} {i : Nat} {p : Program} {sm : SubMesh}
    (hsm : mesh.submeshes[i]? = some sm) (hl : lookupVAO p.handle sm.vaos ≠ 0) :
    FindVAO gl mesh i p = Except.ok (gl, mesh, lookupVAO p.handle sm.vaos) := by
  simp [FindVAO, hsm, hl]

theorem FindVAO_miss {gl : GLState} {mesh : Mesh} {i : Nat} {p : Program} {sm : SubMesh}
    (hsm : mesh.submeshes[i]? = some sm) (hl : lookupVAO p.handle sm.vaos = 0) :
    FindVAO gl mesh i p =
      match firstMatches sm.vertexBufferLayout.attributes p.shaderLayout.attributes with
      | some ms =>
        Except.ok ({ vaoCount := gl.vaoCount + 1,
                     calls := gl.calls ++ createCalls mesh sm (gl.vaoCount + 1) ms },
          pushVAO mesh i sm { handle := gl.vaoCount + 1, programHandle := p.handle },
          gl.vaoCount + 1)
      | none => Except.error Failure.assertAttributeWasLinked := by
  simp only [FindVAO, hsm, hl, if_true, linkLayout_eq]
  cases firstMatches sm.vertexBufferLayout.attributes p.shaderLayout.attributes with
  | none => rfl
  | some ms =>
    simp [glGenVertexArrays, GLState.call, createCalls, pushVAO, List.append_assoc]

theorem lookupVAO_eq_zero_of_forall_ne {p : Nat} {l : List VAO}
    (h : ∀ r ∈ l, r.programHandle ≠ p) : lookupVAO p l = 0 := by
  induction l with
  | nil => rfl
  | cons v rest ih =>
    have hv : v.programHandle ≠ p := h v (List.mem_cons_self _ _)
    simp only [lookupVAO, hv, if_false]
    exact ih (fun r hr => h r (List.mem_cons_of_mem _ hr))

theorem forall_ne_of_lookupVAO_eq_zero {p : Nat} {l : List VAO}
    (hnz : ∀ r ∈ l, r.programHandle = p → r.handle ≠ 0) (h : lookupVAO p l = 0) :
    ∀ r ∈ l, r.programHandle ≠ p := by
  induction l with
  | nil => intro r hr; cases hr
  | cons v rest ih =>
    by_cases hv : v.programHandle = p
    · simp only [lookupVAO, hv, if_true] at h
      exact absurd h (hnz v (List.mem_cons_self _ _) hv)
    · simp only [lookupVAO, hv, if_false] at h
      intro r hr
      rcases List.mem_cons.1 hr with rfl | hr
      · exact hv
      · exact ih (fun r hr => hnz r (List.mem_cons_of_mem _ hr)) h r hr

theorem lookupVAO_append_of_forall_ne {p : Nat} {l : List VAO} (l2 : List VAO)
    (h : ∀ r ∈ l, r.programHandle ≠ p) : lookupVAO p (l ++ l2) = lookupVAO p l2 := by
  induction l with
  | nil => rfl
  | cons v rest ih =>
    have hv : v.programHandle ≠ p := h v (List.mem_cons_self _ _)
    simp only [List.cons_append, lookupVAO, hv, if_false]
    exact ih (fun r hr => h r (List.mem_cons_of_mem _ hr))

theorem pushVAO_getElem? {mesh : Mesh} {i : Nat} {sm : SubMesh} (v : VAO)
    (hsm : mesh.submeshes[i]? = some sm) :
    (pushVAO mesh i sm v).submeshes[i]? = some { sm with vaos := sm.vaos ++ [v] } := by
  have hi : i < mesh.submeshes.length := by
    rcases Nat.lt_or_ge i mesh.submeshes.length with h | h
    · exact h
    · rw [List.getElem?_eq_none h] at hsm; cases hsm
  simp [pushVAO, List.getElem?_set, hi]

theorem FindVAO_idempotent_of_nonzero_handles (gl : GLState) (mesh : Mesh) (i : Nat) (p : Program)
    (gl1 : GLState) (mesh1 : Mesh) (h1 : Nat)
    (hnz : ∀ sm, mesh.submeshes[i]? = some sm →
      ∀ r ∈ sm.vaos, r.programHandle = p.handle → r.handle ≠ 0)
    (hfirst : FindVAO gl mesh i p = Except.ok (gl1, mesh1, h1)) :
    FindVAO gl1 mesh1 i p = Except.ok (gl1, mesh1, h1) := by
  cases hsm : mesh.submeshes[i]? with
  | none => simp [FindVAO, hsm] at hfirst
  | some sm =>
    by_cases hl : lookupVAO p.handle sm.vaos = 0
    · rw [FindVAO_miss hsm hl] at hfirst
      cases hm : firstMatches sm.vertexBufferLayout.attributes p.shaderLayout.attributes with
      | none => rw [hm] at hfirst; cases hfirst
      | some ms =>
        rw [hm] at hfirst
        simp only [Except.ok.injEq, Prod.mk.injEq] at hfirst
        obtain ⟨hgl, hmesh, hh⟩ := hfirst
        have hne := forall_ne_of_lookupVAO_eq_zero (hnz sm hsm) hl
        have hsm1 := pushVAO_getElem? { handle := gl.vaoCount + 1, programHandle := p.handle } hsm
        rw [hmesh] at hsm1
        have hlook : lookupVAO p.handle
            ({ sm with vaos := sm.vaos ++
                [{ handle := gl.vaoCount + 1, programHandle := p.handle }] } : SubMesh).vaos
              = h1 := by
          simp [lookupVAO_append_of_forall_ne _ hne, lookupVAO, hh]
        have hne0 : lookupVAO p.handle
            ({ sm with vaos := sm.vaos ++
                [{ handle := gl.vaoCount + 1, programHandle := p.handle }] } : SubMesh).vaos
              ≠ 0 := by
          rw [hlook, ← hh]; exact Nat.succ_ne_zero _
        rw [FindVAO_hit hsm1 hne0, hlook]
    · rw [FindVAO_hit hsm hl] at hfirst
      simp only [Except.ok.injEq, Prod.mk.injEq] at hfirst
      obtain ⟨hgl, hmesh, hh⟩ := hfirst
      subst hgl; subst hmesh
      rw [FindVAO_hit hsm hl, hh]

theorem firstMatch_eq_none_iff {loc : Nat} {attrs : List VertexBufferAttribute} :
    firstMatch loc attrs = none ↔ ∀ a ∈ attrs, a.location ≠ loc := by
  simp only [firstMatch, List.find?_eq_none, decide_eq_true_eq]
  constructor
  · intro h a ha e; exact h a ha e.symm
  · intro h a ha e; exact h a ha e.symm

theorem firstMatch_some {loc : Nat} {attrs : List VertexBufferAttribute}
    {a : VertexBufferAttribute} (h : firstMatch loc attrs = some a) :
    a ∈ attrs ∧ a.location = loc := by
  refine ⟨List.mem_of_find?_eq_some h, ?_⟩
  unfold firstMatch at h
  have h2 := List.find?_some h
  exact (of_decide_eq_true h2).symm

theorem firstMatches_eq_none_iff {attrs : List VertexBufferAttribute}
    {ss : List VertexShaderAttribute} :
    firstMatches attrs ss = none ↔ ∃ s ∈ ss, ∀ a ∈ attrs, a.location ≠ s.location := by
  induction ss with
  | nil => simp [firstMatches]
  | cons s rest ih =>
    cases h1 : firstMatch s.location attrs with
    | none =>
      simp only [firstMatches, h1, true_iff]
      exact ⟨s, List.mem_cons_self _ _, firstMatch_eq_none_iff.1 h1⟩
    | some a =>
      have hs : ¬ ∀ a ∈ attrs, a.location ≠ s.location := by
        intro h; rw [firstMatch_eq_none_iff.2 h] at h1; cases h1
      cases h2 : firstMatches attrs rest with
      | none =>
        simp only [firstMatches, h1, h2, true_iff]
        obtain ⟨s', hs', h'⟩ := ih.1 h2
        exact ⟨s', List.mem_cons_of_mem _ hs', h'⟩
      | some ms =>
        simp only [firstMatches, h1, h2, false_iff, reduceCtorEq]
        rintro ⟨s', hs', h'⟩
        rcases List.mem_cons.1 hs' with rfl | hs'
        · exact hs h'
        · have := ih.2 ⟨s', hs', h'⟩
          rw [h2] at this; cases this

theorem FindVAO_unmatched_location_fails_of_miss (gl : GLState) (mesh : Mesh) (i : Nat) (p : Program)
    (sm : SubMesh) (hsm : mesh.submeshes[i]? = some sm)
    (hmiss : lookupVAO p.handle sm.vaos = 0)
    (hun : ∃ s ∈ p.shaderLayout.attributes,
      ∀ a ∈ sm.vertexBufferLayout.attributes, a.location ≠ s.location) :
    FindVAO gl mesh i p = Except.error Failure.assertAttributeWasLinked := by
  rw [FindVAO_miss hsm hmiss, firstMatches_eq_none_iff.2 hun]

theorem FindVAO_preserves_cache_invariant {gl : GLState} {mesh : Mesh} {i j : Nat} {p : Program}
    {sm : SubMesh} {gl1 : GLState} {mesh1 : Mesh} {h : Nat}
    (hok : FindVAO gl mesh j p = Except.ok (gl1, mesh1, h))
    (hsm : mesh.submeshes[i]? = some sm)
    (hnz : ∀ r ∈ sm.vaos, r.handle ≠ 0)
    (hpw : sm.vaos.Pairwise (fun a b => a.programHandle ≠ b.programHandle)) :
    ∃ sm1, mesh1.submeshes[i]? = some sm1 ∧ (∀ r ∈ sm1.vaos, r.handle ≠ 0) ∧
      sm1.vaos.Pairwise (fun a b => a.programHandle ≠ b.programHandle) := by
  cases hj : mesh.submeshes[j]? with
  | none => simp [FindVAO, hj] at hok
  | some smj =>
    by_cases hl : lookupVAO p.handle smj.vaos = 0
    · rw [FindVAO_miss hj hl] at hok
      cases hm : firstMatches smj.vertexBufferLayout.attributes p.shaderLayout.attributes with
      | none => rw [hm] at hok; cases hok
      | some ms =>
        rw [hm] at hok
        simp only [Except.ok.injEq, Prod.mk.injEq] at hok
        obtain ⟨_, hmesh, _⟩ := hok
        by_cases hij : j = i
        · subst hij
          have hsmj : smj = sm := by rw [hj] at hsm; exact Option.some.inj hsm
          subst hsmj
          refine ⟨_, hmesh ▸ pushVAO_getElem? _ hj, ?_, ?_⟩
          · intro r hr
            rcases List.mem_append.1 hr with hr | hr
            · exact hnz r hr
            · simp only [List.mem_singleton] at hr
              rw [hr]; exact Nat.succ_ne_zero _
          · have hne := forall_ne_of_lookupVAO_eq_zero (fun r hr _ => hnz r hr) hl
            refine List.pairwise_append.2 ⟨hpw, List.pairwise_singleton _ _, ?_⟩
            intro a ha b hb
            simp only [List.mem_singleton] at hb
            rw [hb]; exact hne a ha
        · refine ⟨sm, ?_, hnz, hpw⟩
          rw [← hmesh]
          simp only [pushVAO]
          rw [List.getElem?_set_ne hij]
          exact hsm
    · rw [FindVAO_hit hj hl] at hok
      simp only [Except.ok.injEq, Prod.mk.injEq] at hok
      obtain ⟨_, hmesh, _⟩ := hok
      exact ⟨sm, hmesh ▸ hsm, hnz, hpw⟩

theorem FindVAOs_preserves_cache_invariant {calls : List (GLState × Nat × Program)}
    {mesh : Mesh} {i : Nat} {sm : SubMesh} {mesh1 : Mesh}
    (hok : FindVAOs mesh calls = Except.ok mesh1)
    (hsm : mesh.submeshes[i]? = some sm)
    (hnz : ∀ r ∈ sm.vaos, r.handle ≠ 0)
    (hpw : sm.vaos.Pairwise (fun a b => a.programHandle ≠ b.programHandle)) :
    ∃ sm1, mesh1.submeshes[i]? = some sm1 ∧ (∀ r ∈ sm1.vaos, r.handle ≠ 0) ∧
      sm1.vaos.Pairwise (fun a b => a.programHandle ≠ b.programHandle) := by
  induction calls generalizing mesh sm with
  | nil =>
    simp only [FindVAOs, Except.ok.injEq] at hok
    exact ⟨sm, hok ▸ hsm, hnz, hpw⟩
  | cons c rest ih =>
    obtain ⟨gl, j, p⟩ := c
    simp only [FindVAOs] at hok
    cases hf : FindVAO gl mesh j p with
    | error e => rw [hf] at hok; cases hok
    | ok r =>
      obtain ⟨gl2, mesh2, h⟩ := r
      rw [hf] at hok
      obtain ⟨sm2, hsm2, hnz2, hpw2⟩ := FindVAO_preserves_cache_invariant hf hsm hnz hpw
      exact ih hok hsm2 hnz2 hpw2

/-- C4. Start from a mesh in which the `vaos` list of submesh `i` is empty and run any finite
sequence of `FindVAO` calls, on any submesh indices, with any programs and in any OpenGL
contexts, all of which succeed: afterwards no two records in the `vaos` list of submesh `i`
have the same `programHandle`. -/
theorem FindVAOs_one_record_per_program (mesh : Mesh) (i : Nat) (sm : SubMesh)
    (calls : List (GLState × Nat × Program)) (mesh1 : Mesh)
    (hsm : mesh.submeshes[i]? = some sm) (hempty : sm.vaos = [])
    (hok : FindVAOs mesh calls = Except.ok mesh1) :
    ∃ sm1, mesh1.submeshes[i]? = some sm1 ∧
      sm1.vaos.Pairwise (fun a b => a.programHandle ≠ b.programHandle) := by
  obtain ⟨sm1, h1, _, h3⟩ := FindVAOs_preserves_cache_invariant hok hsm
    (by rw [hempty]; intro r hr; cases hr) (by rw [hempty]; exact List.Pairwise.nil)
  exact ⟨sm1, h1, h3⟩

/-- C4, witness: the deferred program, the forward program and again the deferred program
on the only submesh of the quad mesh leave two records, for the program handles 6 and 3. -/
theorem FindVAOs_one_record_per_program_witness :
    ∃ sm1, (quadMesh [{ handle := 1, programHandle := 6 },
                      { handle := 2, programHandle := 3 }]).submeshes[0]? = some sm1 ∧
      sm1.vaos.Pairwise (fun a b => a.programHandle ≠ b.programHandle) :=
  FindVAOs_one_record_per_program (quadMesh []) 0 (quadSubMesh [])
    [({ vaoCount := 0, calls := [] }, 0, deferredProgram),
     ({ vaoCount := 1, calls := [] }, 0, forwardProgram),
     ({ vaoCount := 2, calls := [] }, 0, deferredProgram)]
    (quadMesh [{ handle := 1, programHandle := 6 }, { handle := 2, programHandle := 3 }])
    rfl rfl rfl

/-! ## C1, C2, C3: caches built by `FindVAO` -/

theorem FindVAO_keeps_unmatched_program_out {gl : GLState} {mesh : Mesh} {i j : Nat}
    {q : Program} {sm : SubMesh} {gl1 : GLState} {mesh1 : Mesh} {h : Nat} {ph : Nat}
    {layout : VertexShaderLayout}
    (hok : FindVAO gl mesh j q = Except.ok (gl1, mesh1, h))
    (hsm : mesh.submeshes[i]? = some sm)
    (hnone : ∀ r ∈ sm.vaos, r.programHandle ≠ ph)
    (hun : ∃ s ∈ layout.attributes,
      ∀ a ∈ sm.vertexBufferLayout.attributes, a.location ≠ s.location)
    (hq : q.handle = ph → q.shaderLayout = layout) :
    ∃ sm1, mesh1.submeshes[i]? = some sm1 ∧
      sm1.vertexBufferLayout = sm.vertexBufferLayout ∧
      ∀ r ∈ sm1.vaos, r.programHandle ≠ ph := by
  cases hj : mesh.submeshes[j]? with
  | none => simp [FindVAO, hj] at hok
  | some smj =>
    by_cases hl : lookupVAO q.handle smj.vaos = 0
    · rw [FindVAO_miss hj hl] at hok
      cases hm : firstMatches smj.vertexBufferLayout.attributes q.shaderLayout.attributes with
      | none => rw [hm] at hok; cases hok
      | some ms =>
        rw [hm] at hok
        simp only [Except.ok.injEq, Prod.mk.injEq] at hok
        obtain ⟨_, hmesh, _⟩ := hok
        by_cases hij : j = i
        · subst hij
          have hsmj : smj = sm := by rw [hj] at hsm; exact Option.some.inj hsm
          subst hsmj
          refine ⟨_, hmesh ▸ pushVAO_getElem? _ hj, ?_, ?_⟩
          · rfl
          intro r hr
          rcases List.mem_append.1 hr with hr | hr
          · exact hnone r hr
          · simp only [List.mem_singleton] at hr
            rw [hr]
            intro hqp
            have hnone' := firstMatches_eq_none_iff.2 (hq hqp ▸ hun)
            rw [hnone'] at hm
            cases hm
        · refine ⟨sm, ?_, rfl, hnone⟩
          rw [← hmesh]
          simp only [pushVAO]
          rw [List.getElem?_set_ne hij]
          exact hsm
    · rw [FindVAO_hit hj hl] at hok
      simp only [Except.ok.injEq, Prod.mk.injEq] at hok
      obtain ⟨_, hmesh, _⟩ := hok
      exact ⟨sm, hmesh ▸ hsm, rfl, hnone⟩

theorem FindVAOs_keeps_unmatched_program_out {calls : List (GLState × Nat × Program)}
    {mesh : Mesh} {i : Nat} {sm : SubMesh} {mesh1 : Mesh} {ph : Nat}
    {layout : VertexShaderLayout}
    (hok : FindVAOs mesh calls = Except.ok mesh1)
    (hsm : mesh.submeshes[i]? = some sm)
    (hnone : ∀ r ∈ sm.vaos, r.programHandle ≠ ph)
    (hun : ∃ s ∈ layout.attributes,
      ∀ a ∈ sm.vertexBufferLayout.attributes, a.location ≠ s.location)
    (hq : ∀ c ∈ calls, c.2.2.handle = ph → c.2.2.shaderLayout = layout) :
    ∃ sm1, mesh1.submeshes[i]? = some sm1 ∧
      sm1.vertexBufferLayout = sm.vertexBufferLayout ∧
      ∀ r ∈ sm1.vaos, r.programHandle ≠ ph := by
  induction calls generalizing mesh sm with
  | nil =>
    simp only [FindVAOs, Except.ok.injEq] at hok
    exact ⟨sm, hok ▸ hsm, rfl, hnone⟩
  | cons c rest ih =>
    obtain ⟨gl, j, q⟩ := c
    simp only [FindVAOs] at hok
    cases hf : FindVAO gl mesh j q with
    | error e => rw [hf] at hok; cases hok
    | ok r =>
      obtain ⟨gl2, mesh2, h⟩ := r
      rw [hf] at hok
      obtain ⟨sm2, hsm2, hlay2, hnone2⟩ := FindVAO_keeps_unmatched_program_out hf hsm hnone hun
        (hq (gl, j, q) (List.mem_cons_self _ _))
      obtain ⟨sm3, hsm3, hlay3, hnone3⟩ := ih hok hsm2 hnone2 (hlay2 ▸ hun)
        (fun c hc => hq c (List.mem_cons_of_mem _ hc))
      exact ⟨sm3, hsm3, hlay3.trans hlay2, hnone3⟩

/-- C1. Take a mesh in which the cache of submesh `i` was built by `FindVAO` itself: the
`vaos` list was empty and any finite sequence of `FindVAO` calls ran, on any submesh indices,
with any programs and in any OpenGL contexts. For every program and every context, a
`FindVAO` call that follows a successful `FindVAO` call with the same arguments returns the
same handle and leaves the OpenGL context (no vertex array generated, no call issued) and the
mesh (no record appended) exactly as the first call left them. -/
theorem FindVAO_idempotent (mesh0 : Mesh) (i : Nat) (sm0 : SubMesh)
    (calls : List (GLState × Nat × Program)) (mesh : Mesh)
    (hsm : mesh0.submeshes[i]? = some sm0) (hempty : sm0.vaos = [])
    (hrun : FindVAOs mesh0 calls = Except.ok mesh)
    (gl : GLState) (p : Program) (gl1 : GLState) (mesh1 : Mesh) (h1 : Nat)
    (hfirst : FindVAO gl mesh i p = Except.ok (gl1, mesh1, h1)) :
    FindVAO gl1 mesh1 i p = Except.ok (gl1, mesh1, h1) := by
  obtain ⟨sm, hsm1, hnz, _⟩ := FindVAOs_preserves_cache_invariant hrun hsm
    (by rw [hempty]; intro r hr; cases hr) (by rw [hempty]; exact List.Pairwise.nil)
  refine FindVAO_idempotent_of_nonzero_handles gl mesh i p gl1 mesh1 h1 ?_ hfirst
  intro sm' hsm' r hr _
  rw [hsm1] at hsm'
  cases hsm'
  exact hnz r hr

/-- C1, witness: the quad mesh after `FindVAO` cached the vertex array 1 for the deferred
program; the first call for the forward program creates the vertex array 2, the second
returns 2 and changes nothing. -/
theorem FindVAO_idempotent_witness :
    FindVAO { vaoCount := 2, calls := quadForwardCalls 2 }
        (quadMesh [{ handle := 1, programHandle := 6 }, { handle := 2, programHandle := 3 }])
        0 forwardProgram
      = Except.ok ({ vaoCount := 2, calls := quadForwardCalls 2 },
          quadMesh [{ handle := 1, programHandle := 6 }, { handle := 2, programHandle := 3 }],
          2) :=
  FindVAO_idempotent (quadMesh []) 0 (quadSubMesh [])
    [({ vaoCount := 0, calls := [] }, 0, deferredProgram)]
    (quadMesh [{ handle := 1, programHandle := 6 }]) rfl rfl rfl
    { vaoCount := 1, calls := [] } forwardProgram
    { vaoCount := 2, calls := quadForwardCalls 2 }
    (quadMesh [{ handle := 1, programHandle := 6 }, { handle := 2, programHandle := 3 }]) 2
    rfl

/-- C2. Take a mesh in which the cache of submesh `i` was built by `FindVAO` itself, from an
empty `vaos` list and by calls whose programs with the handle of `p` have the shader layout
of `p` (a program handle names one program). Whenever some attribute location of the shader
layout of `p` equals no attribute location of the submesh's vertex buffer layout, which no
call changes, `FindVAO` for `p` fails on `assert(attributeWasLinked)` in every context and
returns no handle. -/
theorem FindVAO_unmatched_location_fails (mesh0 : Mesh) (i : Nat) (sm0 : SubMesh)
    (calls : List (GLState × Nat × Program)) (mesh : Mesh) (p : Program)
    (hsm : mesh0.submeshes[i]? = some sm0) (hempty : sm0.vaos = [])
    (hrun : FindVAOs mesh0 calls = Except.ok mesh)
    (hprograms : ∀ c ∈ calls, c.2.2.handle = p.handle → c.2.2.shaderLayout = p.shaderLayout)
    (hun : ∃ s ∈ p.shaderLayout.attributes,
      ∀ a ∈ sm0.vertexBufferLayout.attributes, a.location ≠ s.location)
    (gl : GLState) :
    (∃ sm, mesh.submeshes[i]? = some sm ∧
      sm.vertexBufferLayout = sm0.vertexBufferLayout) ∧
    FindVAO gl mesh i p = Except.error Failure.assertAttributeWasLinked := by
  obtain ⟨sm, hsm1, hlay, hnone⟩ := FindVAOs_keeps_unmatched_program_out hrun hsm
    (by rw [hempty]; intro r hr; cases hr) hun hprograms
  refine ⟨⟨sm, hsm1, hlay⟩, ?_⟩
  exact FindVAO_unmatched_location_fails_of_miss gl mesh i p sm hsm1
    (lookupVAO_eq_zero_of_forall_ne hnone) (hlay ▸ hun)

/-- C2, witness: the quad mesh (the layout `Init` builds declares locations 0 and 2) after
`FindVAO` cached a vertex array for the forward program; a program whose shader layout
requires location 3 fails. -/
theorem FindVAO_unmatched_location_fails_witness :
    FindVAO { vaoCount := 1, calls := [] } (quadMesh [{ handle := 1, programHandle := 3 }]) 0
        { handle := 7, shaderLayout := { attributes := [{ location := 3, componentCount := 2 }] } }
      = Except.error Failure.assertAttributeWasLinked :=
  (FindVAO_unmatched_location_fails (quadMesh []) 0 (quadSubMesh [])
    [({ vaoCount := 0, calls := [] }, 0, forwardProgram)]
    (quadMesh [{ handle := 1, programHandle := 3 }])
    { handle := 7, shaderLayout := { attributes := [{ location := 3, componentCount := 2 }] } }
    rfl rfl rfl (by decide) ⟨{ location := 3, componentCount := 2 }, by simp, by decide⟩
    { vaoCount := 1, calls := [] }).2

theorem attribPointers_append (l1 l2 : List GLCall) :
    attribPointers (l1 ++ l2) = attribPointers l1 ++ attribPointers l2 := by
  induction l1 with
  | nil => rfl
  | cons c rest ih => cases c <;> simp [attribPointers, ih]

theorem attribPointers_linkCalls (sm : SubMesh) (ms : List VertexBufferAttribute) :
    attribPointers (ms.flatMap (linkCalls sm)) = ms.map (pointerOf sm) := by
  induction ms with
  | nil => rfl
  | cons a rest ih =>
    rw [List.flatMap_cons, attribPointers_append, ih]
    rfl

theorem attribPointers_createCalls (mesh : Mesh) (sm : SubMesh) (n : Nat)
    (ms : List VertexBufferAttribute) :
    attribPointers (createCalls mesh sm n ms) = ms.map (pointerOf sm) := by
  unfold createCalls
  rw [attribPointers_append, attribPointers_append, attribPointers_linkCalls]
  simp [attribPointers]

theorem firstMatches_forall₂ {attrs : List VertexBufferAttribute}
    {ss : List VertexShaderAttribute} {ms : List VertexBufferAttribute}
    (h : firstMatches attrs ss = some ms) :
    List.Forall₂ (fun s a => firstMatch s.location attrs = some a) ss ms := by
  induction ss generalizing ms with
  | nil =>
    simp only [firstMatches, Option.some.injEq] at h
    subst h; exact List.Forall₂.nil
  | cons s rest ih =>
    cases h1 : firstMatch s.location attrs with
    | none => simp [firstMatches, h1] at h
    | some a =>
      cases h2 : firstMatches attrs rest with
      | none => simp [firstMatches, h1, h2] at h
      | some ms' =>
        simp only [firstMatches, h1, h2, Option.some.injEq] at h
        subst h
        exact List.Forall₂.cons h1 (ih h2)

/-- What a successful cache miss leaves behind. -/
theorem FindVAO_miss_ok {gl : GLState} {mesh : Mesh} {i : Nat} {p : Program} {sm : SubMesh}
    {gl1 : GLState} {mesh1 : Mesh} {h : Nat}
    (hsm : mesh.submeshes[i]? = some sm) (hl : lookupVAO p.handle sm.vaos = 0)
    (hok : FindVAO gl mesh i p = Except.ok (gl1, mesh1, h)) :
    ∃ ms, firstMatches sm.vertexBufferLayout.attributes p.shaderLayout.attributes = some ms ∧
      gl1.calls = gl.calls ++ createCalls mesh sm (gl.vaoCount + 1) ms ∧
      gl1.vaoCount = gl.vaoCount + 1 ∧ h = gl.vaoCount + 1 ∧
      mesh1 = pushVAO mesh i sm { handle := gl.vaoCount + 1, programHandle := p.handle } := by
  rw [FindVAO_miss hsm hl] at hok
  cases hm : firstMatches sm.vertexBufferLayout.attributes p.shaderLayout.attributes with
  | none => rw [hm] at hok; cases hok
  | some ms =>
    rw [hm] at hok
    simp only [Except.ok.injEq, Prod.mk.injEq] at hok
    obtain ⟨hgl, hmesh, hh⟩ := hok
    subst hgl
    exact ⟨ms, rfl, rfl, rfl, hh.symm, hmesh.symm⟩

/-- C5, counterexample. With `vertexOffset = 4294967295` and an attribute offset of 1 the
pointer `FindVAO` configures has byte offset 0, not `1 + 4294967295`: the sum is held in the
32-bit local `offset`. -/
theorem FindVAO_pointer_offset_wraps :
    FindVAO { vaoCount := 0, calls := [] }
        { submeshes := [{ vertexBufferLayout :=
                            { attributes := [{ location := 0, componentCount := 3, offset := 1 }],
                              stride := 12 },
                          vertexOffset := 4294967295, indexOffset := 0, vaos := [] }],
          vertexBufferHandle := 1, indexBufferHandle := 2 } 0
        { handle := 7, shaderLayout := { attributes := [{ location := 0, componentCount := 3 }] } }
      = Except.ok
        ({ vaoCount := 1,
           calls := [GLCall.glGenVertexArrays 1, GLCall.glBindVertexArray 1,
                     GLCall.glBindBuffer BufferTarget.GL_ARRAY_BUFFER 1,
                     GLCall.glBindBuffer BufferTarget.GL_ELEMENT_ARRAY_BUFFER 2,
                     GLCall.glVertexAttribPointer 0 3 ComponentType.GL_FLOAT false 12 0,
                     GLCall.glEnableVertexAttribArray 0,
                     GLCall.glBindVertexArray 0] },
         { submeshes := [{ vertexBufferLayout :=
                            { attributes := [{ location := 0, componentCount := 3, offset := 1 }],
                              stride := 12 },
                           vertexOffset := 4294967295, indexOffset := 0,
                           vaos := [{ handle := 1, programHandle := 7 }] }],
           vertexBufferHandle := 1, indexBufferHandle := 2 }, 1) ∧
    (0 : Nat) ≠ 1 + 4294967295 :=
  ⟨rfl, by decide⟩

/-- C5, amended. When `FindVAO` creates a binding, the `glVertexAttribPointer` calls it issues
correspond one to one, in order, to the attributes of the shader layout; the pointer of a
shader attribute has the shader attribute's location as index, and the component count of
the first submesh attribute with that location, the type `GL_FLOAT`, the stride of the
submesh layout, and as byte offset that submesh attribute's offset plus the submesh's
`vertexOffset` reduced modulo `2 ^ 32`, which is the plain sum whenever the sum is below
`2 ^ 32`. -/
theorem FindVAO_configures_pointers (gl : GLState) (mesh : Mesh) (i : Nat) (p : Program)
    (sm : SubMesh) (gl1 : GLState) (mesh1 : Mesh) (h : Nat)
    (hsm : mesh.submeshes[i]? = some sm) (hmiss : lookupVAO p.handle sm.vaos = 0)
    (hok : FindVAO gl mesh i p = Except.ok (gl1, mesh1, h)) :
    List.Forall₂
      (fun s ptr => ∃ a, firstMatch s.location sm.vertexBufferLayout.attributes = some a ∧
        a ∈ sm.vertexBufferLayout.attributes ∧ a.location = s.location ∧
        ptr.index = s.location ∧ ptr.ncomp = a.componentCount ∧
        ptr.type = ComponentType.GL_FLOAT ∧ ptr.stride = sm.vertexBufferLayout.stride ∧
        ptr.offset = (a.offset + sm.vertexOffset) % 2 ^ 32 ∧
        (a.offset + sm.vertexOffset < 2 ^ 32 → ptr.offset = a.offset + sm.vertexOffset))
      p.shaderLayout.attributes (attribPointers (gl1.calls.drop gl.calls.length)) := by
  obtain ⟨ms, hms, hcalls, _, _, _⟩ := FindVAO_miss_ok hsm hmiss hok
  rw [hcalls, List.drop_left, attribPointers_createCalls, List.forall₂_map_right_iff]
  refine List.Forall₂.imp ?_ (firstMatches_forall₂ hms)
  intro s a hsa
  obtain ⟨hmem, hloc⟩ := firstMatch_some hsa
  exact ⟨a, hsa, hmem, hloc, hloc, rfl, rfl, rfl, rfl, fun hlt => Nat.mod_eq_of_lt hlt⟩

/-- C5, witness: the pointers configured for the forward program on the quad mesh. -/
theorem FindVAO_configures_pointers_witness :
    List.Forall₂
      (fun s ptr => ∃ a,
        firstMatch s.location (quadSubMesh []).vertexBufferLayout.attributes = some a ∧
        a ∈ (quadSubMesh []).vertexBufferLayout.attributes ∧ a.location = s.location ∧
        ptr.index = s.location ∧ ptr.ncomp = a.componentCount ∧
        ptr.type = ComponentType.GL_FLOAT ∧
        ptr.stride = (quadSubMesh []).vertexBufferLayout.stride ∧
        ptr.offset = (a.offset + (quadSubMesh []).vertexOffset) % 2 ^ 32 ∧
        (a.offset + (quadSubMesh []).vertexOffset < 2 ^ 32 →
          ptr.offset = a.offset + (quadSubMesh []).vertexOffset))
      forwardProgram.shaderLayout.attributes
      (attribPointers ((quadForwardCalls 1).drop 0)) :=
  FindVAO_configures_pointers { vaoCount := 0, calls := [] } (quadMesh []) 0 forwardProgram
    (quadSubMesh []) { vaoCount := 1, calls := quadForwardCalls 1 }
    (quadMesh [{ handle := 1, programHandle := 3 }]) 1 rfl rfl rfl

theorem firstMatches_isSome_iff {attrs : List VertexBufferAttribute}
    {ss : List VertexShaderAttribute} :
    (∃ ms, firstMatches attrs ss = some ms) ↔
      ∀ s ∈ ss, ∃ a ∈ attrs, a.location = s.location := by
  constructor
  · rintro ⟨ms, hms⟩ s hs
    by_contra hcon
    have : firstMatches attrs ss = none :=
      firstMatches_eq_none_iff.2 ⟨s, hs, fun a ha e => hcon ⟨a, ha, e⟩⟩
    rw [this] at hms; cases hms
  · intro hall
    cases hm : firstMatches attrs ss with
    | some ms => exact ⟨ms, rfl⟩
    | none =>
      obtain ⟨s, hs, hno⟩ := firstMatches_eq_none_iff.1 hm
      obtain ⟨a, ha, e⟩ := hall s hs
      exact absurd e (hno a ha)

/-- C6, counterexample. Two submesh attributes share location 0 and the shader layout
requires location 0: the creation of the binding succeeds, with the first of the two. -/
theorem FindVAO_succeeds_with_shared_location :
    FindVAO { vaoCount := 0, calls := [] }
        { submeshes := [{ vertexBufferLayout :=
                            { attributes := [{ location := 0, componentCount := 3, offset := 0 },
                                             { location := 0, componentCount := 2, offset := 12 }],
                              stride := 20 },
                          vertexOffset := 0, indexOffset := 0, vaos := [] }],
          vertexBufferHandle := 1, indexBufferHandle := 2 } 0
        { handle := 7, shaderLayout := { attributes := [{ location := 0, componentCount := 3 }] } }
      = Except.ok
        ({ vaoCount := 1,
           calls := [GLCall.glGenVertexArrays 1, GLCall.glBindVertexArray 1,
                     GLCall.glBindBuffer BufferTarget.GL_ARRAY_BUFFER 1,
                     GLCall.glBindBuffer BufferTarget.GL_ELEMENT_ARRAY_BUFFER 2,
                     GLCall.glVertexAttribPointer 0 3 ComponentType.GL_FLOAT false 20 0,
                     GLCall.glEnableVertexAttribArray 0,
                     GLCall.glBindVertexArray 0] },
         { submeshes := [{ vertexBufferLayout :=
                            { attributes := [{ location := 0, componentCount := 3, offset := 0 },
                                             { location := 0, componentCount := 2, offset := 12 }],
                              stride := 20 },
                           vertexOffset := 0, indexOffset := 0,
                           vaos := [{ handle := 1, programHandle := 7 }] }],
           vertexBufferHandle := 1, indexBufferHandle := 2 }, 1) :=
  rfl

/-- C6, amended. `FindVAO`'s creation of a binding succeeds if and only if every attribute of
the program's shader layout has at least one submesh attribute with an equal location; a
shader attribute with no match makes the resolution fail on the assertion, and several
submesh attributes sharing its location do not. -/
theorem FindVAO_creation_succeeds_iff (gl : GLState) (mesh : Mesh) (i : Nat) (p : Program)
    (sm : SubMesh) (hsm : mesh.submeshes[i]? = some sm)
    (hmiss : lookupVAO p.handle sm.vaos = 0) :
    ((∃ r, FindVAO gl mesh i p = Except.ok r) ↔
      ∀ s ∈ p.shaderLayout.attributes,
        ∃ a ∈ sm.vertexBufferLayout.attributes, a.location = s.location) ∧
    ((∃ s ∈ p.shaderLayout.attributes,
        ∀ a ∈ sm.vertexBufferLayout.attributes, a.location ≠ s.location) →
      FindVAO gl mesh i p = Except.error Failure.assertAttributeWasLinked) := by
  refine ⟨?_, fun hun => ?_⟩
  · rw [← firstMatches_isSome_iff, FindVAO_miss hsm hmiss]
    cases firstMatches sm.vertexBufferLayout.attributes p.shaderLayout.attributes with
    | none => simp
    | some ms => simp
  · rw [FindVAO_miss hsm hmiss, firstMatches_eq_none_iff.2 hun]

/-- C6, witness: the forward program on the quad mesh with an empty cache. -/
theorem FindVAO_creation_succeeds_iff_witness :
    ((∃ r, FindVAO { vaoCount := 0, calls := [] } (quadMesh []) 0 forwardProgram
        = Except.ok r) ↔
      ∀ s ∈ forwardProgram.shaderLayout.attributes,
        ∃ a ∈ (quadSubMesh []).vertexBufferLayout.attributes, a.location = s.location) ∧
    ((∃ s ∈ forwardProgram.shaderLayout.attributes,
        ∀ a ∈ (quadSubMesh []).vertexBufferLayout.attributes, a.location ≠ s.location) →
      FindVAO { vaoCount := 0, calls := [] } (quadMesh []) 0 forwardProgram
        = Except.error Failure.assertAttributeWasLinked) :=
  FindVAO_creation_succeeds_iff { vaoCount := 0, calls := [] } (quadMesh []) 0 forwardProgram
    (quadSubMesh []) rfl rfl

theorem firstMatch_eq_some_iff_of_nodup {loc : Nat} {attrs : List VertexBufferAttribute}
    (hnd : (attrs.map VertexBufferAttribute.location).Nodup) (a : VertexBufferAttribute) :
    firstMatch loc attrs = some a ↔ a ∈ attrs ∧ a.location = loc := by
  constructor
  · exact firstMatch_some
  · rintro ⟨ha, hloc⟩
    cases hf : firstMatch loc attrs with
    | none => exact absurd hloc (firstMatch_eq_none_iff.1 hf a ha)
    | some b =>
      obtain ⟨hb, hbloc⟩ := firstMatch_some hf
      rw [List.inj_on_of_nodup_map hnd hb ha (hbloc.trans hloc.symm)]

theorem firstMatch_perm {loc : Nat} {attrs attrs' : List VertexBufferAttribute}
    (hnd : (attrs.map VertexBufferAttribute.location).Nodup) (hp : attrs'.Perm attrs) :
    firstMatch loc attrs' = firstMatch loc attrs := by
  have hnd' : (attrs'.map VertexBufferAttribute.location).Nodup :=
    (List.Perm.nodup_iff (hp.map _)).2 hnd
  apply Option.ext
  intro a
  simp only [Option.mem_def]
  rw [firstMatch_eq_some_iff_of_nodup hnd, firstMatch_eq_some_iff_of_nodup hnd', hp.mem_iff]

theorem mem_map_pointerOf_iff {sm : SubMesh} {ss : List VertexShaderAttribute}
    {ms : List VertexBufferAttribute}
    (h : firstMatches sm.vertexBufferLayout.attributes ss = some ms) (ptr : AttribPointer) :
    ptr ∈ ms.map (pointerOf sm) ↔
      ∃ s ∈ ss, ∃ a, firstMatch s.location sm.vertexBufferLayout.attributes = some a ∧
        ptr = pointerOf sm a := by
  have hf := firstMatches_forall₂ h
  clear h
  induction hf with
  | nil => simp
  | @cons s a ss' ms' hsa _ ih =>
    simp only [List.map_cons, List.mem_cons, ih]
    constructor
    · rintro (rfl | ⟨s', hs', a', ha', rfl⟩)
      · exact ⟨s, Or.inl rfl, a, hsa, rfl⟩
      · exact ⟨s', Or.inr hs', a', ha', rfl⟩
    · rintro ⟨s', hs' | hs', a', ha', rfl⟩
      · subst hs'
        rw [hsa] at ha'
        left; rw [Option.some.inj ha']
      · exact Or.inr ⟨s', hs', a', ha', rfl⟩

theorem withSubmeshAttributes_getElem? {mesh : Mesh} {i : Nat} {sm : SubMesh}
    (attrs : List VertexBufferAttribute) (hsm : mesh.submeshes[i]? = some sm) :
    (withSubmeshAttributes mesh i sm attrs).submeshes[i]? =
      some { sm with vertexBufferLayout :=
              { attributes := attrs, stride := sm.vertexBufferLayout.stride } } := by
  have hi : i < mesh.submeshes.length := by
    rcases Nat.lt_or_ge i mesh.submeshes.length with h | h
    · exact h
    · rw [List.getElem?_eq_none h] at hsm; cases hsm
  simp [withSubmeshAttributes, List.getElem?_set, hi]

theorem firstMatches_eq_none_perm {attrs attrs' : List VertexBufferAttribute}
    {ss ss' : List VertexShaderAttribute} (ha : attrs'.Perm attrs) (hs : ss'.Perm ss) :
    firstMatches attrs' ss' = none ↔ firstMatches attrs ss = none := by
  rw [firstMatches_eq_none_iff, firstMatches_eq_none_iff]
  constructor
  · rintro ⟨s, hs1, h⟩
    exact ⟨s, hs.mem_iff.1 hs1, fun a hmem => h a (ha.mem_iff.2 hmem)⟩
  · rintro ⟨s, hs1, h⟩
    exact ⟨s, hs.mem_iff.2 hs1, fun a hmem => h a (ha.mem_iff.1 hmem)⟩

/-- C7, counterexample. Two submesh attributes share location 0. Swapping them is a
permutation of the submesh layout, and the cache-miss `FindVAO` configures the pointer
(index 0, 3 components, stride 20, offset 0) before the swap and (index 0, 2 components,
stride 20, offset 12) after it. -/
theorem FindVAO_order_matters_with_shared_location :
    List.Perm [({ location := 0, componentCount := 2, offset := 12 } : VertexBufferAttribute),
               { location := 0, componentCount := 3, offset := 0 }]
              [{ location := 0, componentCount := 3, offset := 0 },
               { location := 0, componentCount := 2, offset := 12 }] ∧
    FindVAO { vaoCount := 0, calls := [] }
        { submeshes := [{ vertexBufferLayout :=
                            { attributes := [{ location := 0, componentCount := 3, offset := 0 },
                                             { location := 0, componentCount := 2, offset := 12 }],
                              stride := 20 },
                          vertexOffset := 0, indexOffset := 0, vaos := [] }],
          vertexBufferHandle := 1, indexBufferHandle := 2 } 0
        { handle := 7, shaderLayout := { attributes := [{ location := 0, componentCount := 3 }] } }
      = Except.ok
        ({ vaoCount := 1,
           calls := [GLCall.glGenVertexArrays 1, GLCall.glBindVertexArray 1,
                     GLCall.glBindBuffer BufferTarget.GL_ARRAY_BUFFER 1,
                     GLCall.glBindBuffer BufferTarget.GL_ELEMENT_ARRAY_BUFFER 2,
                     GLCall.glVertexAttribPointer 0 3 ComponentType.GL_FLOAT false 20 0,
                     GLCall.glEnableVertexAttribArray 0,
                     GLCall.glBindVertexArray 0] },
         { submeshes := [{ vertexBufferLayout :=
                            { attributes := [{ location := 0, componentCount := 3, offset := 0 },
                                             { location := 0, componentCount := 2, offset := 12 }],
                              stride := 20 },
                           vertexOffset := 0, indexOffset := 0,
                           vaos := [{ handle := 1, programHandle := 7 }] }],
           vertexBufferHandle := 1, indexBufferHandle := 2 }, 1) ∧
    FindVAO { vaoCount := 0, calls := [] }
        { submeshes := [{ vertexBufferLayout :=
                            { attributes := [{ location := 0, componentCount := 2, offset := 12 },
                                             { location := 0, componentCount := 3, offset := 0 }],
                              stride := 20 },
                          vertexOffset := 0, indexOffset := 0, vaos := [] }],
          vertexBufferHandle := 1, indexBufferHandle := 2 } 0
        { handle := 7, shaderLayout := { attributes := [{ location := 0, componentCount := 3 }] } }
      = Except.ok
        ({ vaoCount := 1,
           calls := [GLCall.glGenVertexArrays 1, GLCall.glBindVertexArray 1,
                     GLCall.glBindBuffer BufferTarget.GL_ARRAY_BUFFER 1,
                     GLCall.glBindBuffer BufferTarget.GL_ELEMENT_ARRAY_BUFFER 2,
                     GLCall.glVertexAttribPointer 0 2 ComponentType.GL_FLOAT false 20 12,
                     GLCall.glEnableVertexAttribArray 0,
                     GLCall.glBindVertexArray 0] },
         { submeshes := [{ vertexBufferLayout :=
                            { attributes := [{ location := 0, componentCount := 2, offset := 12 },
                                             { location := 0, componentCount := 3, offset := 0 }],
                              stride := 20 },
                           vertexOffset := 0, indexOffset := 0,
                           vaos := [{ handle := 1, programHandle := 7 }] }],
           vertexBufferHandle := 1, indexBufferHandle := 2 }, 1) :=
  ⟨List.Perm.swap _ _ _, rfl, rfl⟩

/-- C7, amended. For every permutation of the shader layout's attribute list and every
permutation of the submesh layout's attribute list, a cache-miss `FindVAO` succeeds or fails
identically; and when no two submesh attributes share a location, the two successful runs
return the same handle and configure the same set of attribute pointers. -/
theorem FindVAO_order_independent (gl : GLState) (mesh : Mesh) (i : Nat) (p : Program)
    (sm : SubMesh) (attrs' : List VertexBufferAttribute) (ss' : List VertexShaderAttribute)
    (hsm : mesh.submeshes[i]? = some sm) (hmiss : lookupVAO p.handle sm.vaos = 0)
    (hattrs : attrs'.Perm sm.vertexBufferLayout.attributes)
    (hshader : ss'.Perm p.shaderLayout.attributes) :
    ((∃ r, FindVAO gl mesh i p = Except.ok r) ↔
      ∃ r', FindVAO gl (withSubmeshAttributes mesh i sm attrs') i (withShaderAttributes p ss')
        = Except.ok r') ∧
    (∀ e, FindVAO gl mesh i p = Except.error e ↔
      FindVAO gl (withSubmeshAttributes mesh i sm attrs') i (withShaderAttributes p ss')
        = Except.error e) ∧
    ((sm.vertexBufferLayout.attributes.map VertexBufferAttribute.location).Nodup →
      ∀ gl1 mesh1 h gl1' mesh1' h', FindVAO gl mesh i p = Except.ok (gl1, mesh1, h) →
        FindVAO gl (withSubmeshAttributes mesh i sm attrs') i (withShaderAttributes p ss')
          = Except.ok (gl1', mesh1', h') →
        h' = h ∧ ∀ ptr, ptr ∈ attribPointers (gl1.calls.drop gl.calls.length) ↔
          ptr ∈ attribPointers (gl1'.calls.drop gl.calls.length)) := by
  have hsm' := withSubmeshAttributes_getElem? attrs' hsm
  have hmiss' : lookupVAO (withShaderAttributes p ss').handle
      ({ sm with vertexBufferLayout :=
          { attributes := attrs', stride := sm.vertexBufferLayout.stride } } : SubMesh).vaos
        = 0 := hmiss
  have hnone := firstMatches_eq_none_perm hattrs hshader
  have hF : FindVAO gl mesh i p = _ := FindVAO_miss hsm hmiss
  have hF' : FindVAO gl (withSubmeshAttributes mesh i sm attrs') i (withShaderAttributes p ss') =
      match firstMatches attrs' ss' with
      | some ms =>
        Except.ok ({ vaoCount := gl.vaoCount + 1,
                     calls := gl.calls ++ createCalls (withSubmeshAttributes mesh i sm attrs')
                       { sm with vertexBufferLayout :=
                          { attributes := attrs', stride := sm.vertexBufferLayout.stride } }
                       (gl.vaoCount + 1) ms },
          pushVAO (withSubmeshAttributes mesh i sm attrs') i
            { sm with vertexBufferLayout :=
                { attributes := attrs', stride := sm.vertexBufferLayout.stride } }
            { handle := gl.vaoCount + 1, programHandle := p.handle },
          gl.vaoCount + 1)
      | none => Except.error Failure.assertAttributeWasLinked := FindVAO_miss hsm' hmiss'
  refine ⟨?_, ?_, ?_⟩
  · rw [hF, hF']
    cases hm : firstMatches sm.vertexBufferLayout.attributes p.shaderLayout.attributes with
    | none => rw [hnone.2 hm]
    | some ms =>
      cases hm' : firstMatches attrs' ss' with
      | none => rw [hnone.1 hm'] at hm; cases hm
      | some ms' => simp
  · intro e
    rw [hF, hF']
    cases hm : firstMatches sm.vertexBufferLayout.attributes p.shaderLayout.attributes with
    | none => rw [hnone.2 hm]
    | some ms =>
      cases hm' : firstMatches attrs' ss' with
      | none => rw [hnone.1 hm'] at hm; cases hm
      | some ms' => simp
  · intro hnd gl1 mesh1 h gl1' mesh1' h' hok hok'
    obtain ⟨ms, hms, hcalls, _, hh, _⟩ := FindVAO_miss_ok hsm hmiss hok
    obtain ⟨ms', hms', hcalls', _, hh', _⟩ := FindVAO_miss_ok hsm' hmiss' hok'
    refine ⟨hh'.trans hh.symm, fun ptr => ?_⟩
    rw [hcalls, hcalls', List.drop_left, List.drop_left, attribPointers_createCalls,
      attribPointers_createCalls, mem_map_pointerOf_iff hms, mem_map_pointerOf_iff hms']
    change _ ↔
      ∃ s ∈ ss', ∃ a, firstMatch s.location attrs' = some a ∧ ptr = pointerOf sm a
    constructor
    · rintro ⟨s, hs, a, ha, rfl⟩
      exact ⟨s, hshader.mem_iff.2 hs, a, (firstMatch_perm hnd hattrs).trans ha, rfl⟩
    · rintro ⟨s, hs, a, ha, rfl⟩
      exact ⟨s, hshader.mem_iff.1 hs, a, (firstMatch_perm hnd hattrs).symm.trans ha, rfl⟩

/-- C7, witness: both attribute lists of the quad mesh and the forward program reversed; the
locations 0 and 2 of the submesh layout are distinct; both runs succeed and the pointer for
location 0 is configured by the one exactly when it is configured by the other. -/
theorem FindVAO_order_independent_witness :
    ((∃ r, FindVAO { vaoCount := 0, calls := [] } (quadMesh []) 0 forwardProgram
        = Except.ok r) ↔
      ∃ r', FindVAO { vaoCount := 0, calls := [] }
          (withSubmeshAttributes (quadMesh []) 0 (quadSubMesh []) quadAttributesReversed) 0
          (withShaderAttributes forwardProgram
            [{ location := 2, componentCount := 2 }, { location := 0, componentCount := 3 }])
        = Except.ok r') ∧
    (({ index := 0, ncomp := 3, type := ComponentType.GL_FLOAT, stride := 20, offset := 0 }
        : AttribPointer) ∈ attribPointers ((quadForwardCalls 1).drop 0) ↔
      ({ index := 0, ncomp := 3, type := ComponentType.GL_FLOAT, stride := 20, offset := 0 }
        : AttribPointer) ∈ attribPointers ((quadReversedCalls 1).drop 0)) :=
  ⟨(FindVAO_order_independent { vaoCount := 0, calls := [] } (quadMesh []) 0 forwardProgram
      (quadSubMesh []) quadAttributesReversed
      [{ location := 2, componentCount := 2 }, { location := 0, componentCount := 3 }]
      rfl rfl (List.Perm.swap _ _ _) (List.Perm.swap _ _ _)).1,
   ((FindVAO_order_independent { vaoCount := 0, calls := [] } (quadMesh []) 0 forwardProgram
      (quadSubMesh []) quadAttributesReversed
      [{ location := 2, componentCount := 2 }, { location := 0, componentCount := 3 }]
      rfl rfl (List.Perm.swap _ _ _) (List.Perm.swap _ _ _)).2.2 (by decide)
      { vaoCount := 1, calls := quadForwardCalls 1 }
      (quadMesh [{ handle := 1, programHandle := 3 }]) 1
      { vaoCount := 1, calls := quadReversedCalls 1 }
      (pushVAO (withSubmeshAttributes (quadMesh []) 0 (quadSubMesh []) quadAttributesReversed) 0
        { vertexBufferLayout := { attributes := quadAttributesReversed, stride := 20 },
          vertexOffset := 0, indexOffset := 0, vaos := [] }
        { handle := 1, programHandle := 3 }) 1 rfl rfl).2
      { index := 0, ncomp := 3, type := ComponentType.GL_FLOAT, stride := 20, offset := 0 }⟩

/-! ## Lemmas on the scene store and the uniform packing -/

theorem setLastVisualRef_append {F : Type} (lights : List (Light F)) (light : Light F) (v : Nat) :
    setLastVisualRef (lights ++ [light]) v = lights ++ [{ light with visualRef := v }] := by
  unfold setLastVisualRef
  induction lights with
  | nil => rfl
  | cons a rest ih =>
    have hlen : (a :: rest ++ [light]).length - 1 = ((rest ++ [light]).length - 1) + 1 := by
      simp
    rw [hlen, List.cons_append, List.modify_succ_cons, ih, List.cons_append]

theorem AddPointLight_eq {F : Type} [OfScientific F] (glm : Glm F) (app : App F)
    (modelIndex : Nat) (position lightcolor : vec3 F) :
    app.AddPointLight glm modelIndex position lightcolor =
      { app with
        entities := app.entities ++
          [{ worldMatrix := TransformPositionScale glm position (vec3.splat 0.15),
             modelIndex := modelIndex, localParamsOffset := 0, localParamsSize := 0 }],
        lights := app.lights ++
          [{ type := LightType.LightType_Point, color := lightcolor,
             direction := { x := 1.0, y := 1.0, z := 1.0 }, position := position,
             visualRef := app.entities.length }] } := by
  simp [App.AddPointLight, setLastVisualRef_append]

theorem AddDirectionalLight_eq {F : Type} [OfScientific F] (glm : Glm F) (app : App F)
    (modelIndex : Nat) (position direction lightcolor : vec3 F) :
    app.AddDirectionalLight glm modelIndex position direction lightcolor =
      { app with
        entities := app.entities ++
          [{ worldMatrix := TransformPositionScale glm position (vec3.splat 0.15),
             modelIndex := modelIndex, localParamsOffset := 0, localParamsSize := 0 }],
        lights := app.lights ++
          [{ type := LightType.LightType_Directional, color := lightcolor,
             direction := direction, position := position,
             visualRef := app.entities.length }] } := by
  simp [App.AddDirectionalLight, setLastVisualRef_append]

/-- What one call adds: one light whose `visualRef` is the old entity count, one entity. -/
theorem addLight_spec {F : Type} [OfScientific F] (glm : Glm F) (app : App F)
    (c : AddLightCall F) :
    ∃ light entity, (app.addLight glm c).lights = app.lights ++ [light] ∧
      (app.addLight glm c).entities = app.entities ++ [entity] ∧
      light.visualRef = app.entities.length := by
  cases c with
  | point modelIndex position lightcolor =>
    exact ⟨_, _, by simp only [App.addLight, AddPointLight_eq]; exact ⟨rfl, rfl, rfl⟩⟩
  | directional modelIndex position direction lightcolor =>
    exact ⟨_, _, by simp only [App.addLight, AddDirectionalLight_eq]; exact ⟨rfl, rfl, rfl⟩⟩

theorem addLights_spec {F : Type} [OfScientific F] (glm : Glm F) (calls : List (AddLightCall F))
    (app : App F) :
    ∃ added : List (Light F), (app.addLights glm calls).lights = app.lights ++ added ∧
      (app.addLights glm calls).entities.length = app.entities.length + calls.length ∧
      added.map Light.visualRef = List.range' app.entities.length calls.length := by
  induction calls generalizing app with
  | nil => exact ⟨[], by simp [App.addLights]⟩
  | cons c rest ih =>
    obtain ⟨light, entity, hl, he, hv⟩ := addLight_spec glm app c
    obtain ⟨added, h1, h2, h3⟩ := ih (app.addLight glm c)
    refine ⟨light :: added, ?_, ?_, ?_⟩
    · simp only [App.addLights, List.foldl_cons] at h1 ⊢
      rw [h1, hl]; simp
    · simp only [App.addLights, List.foldl_cons] at h2 ⊢
      rw [h2, he]; simp; omega
    · rw [he] at h3
      simp only [List.length_append, List.length_singleton] at h3
      simp [List.range', h3, hv]

/-- C8. For every sequence of `AddPointLight`/`AddDirectionalLight` calls applied to any
scene, the lights after the calls are the lights before them followed by as many added
lights as there are calls; the `visualRef` values of the added lights, in light-index order,
are strictly increasing and pairwise distinct, and each is the index of an entity appended by
the calls. When the `visualRef` values of the initial lights are strictly increasing indices
of initial entities, the `visualRef` values of all the lights are strictly increasing. -/
theorem addLights_count_and_visualRefs {F : Type} [OfScientific F] (glm : Glm F)
    (app : App F) (calls : List (AddLightCall F)) :
    ∃ added : List (Light F), (app.addLights glm calls).lights = app.lights ++ added ∧
      added.length = calls.length ∧
      (added.map Light.visualRef).Pairwise (fun a b => a < b) ∧
      (added.map Light.visualRef).Nodup ∧
      (∀ v ∈ added.map Light.visualRef, app.entities.length ≤ v ∧
        v < (app.addLights glm calls).entities.length) ∧
      ((app.lights.map Light.visualRef).Pairwise (fun a b => a < b) →
        (∀ light ∈ app.lights, light.visualRef < app.entities.length) →
        (((app.addLights glm calls).lights).map Light.visualRef).Pairwise (fun a b => a < b)) := by
  obtain ⟨added, h1, h2, h3⟩ := addLights_spec glm calls app
  have hlen : added.length = calls.length := by
    have := congrArg List.length h3
    simpa using this
  have hpw : (added.map Light.visualRef).Pairwise (fun a b => a < b) := by
    rw [h3]; exact List.pairwise_lt_range' _ _
  have hbound : ∀ v ∈ added.map Light.visualRef, app.entities.length ≤ v ∧
      v < (app.addLights glm calls).entities.length := by
    intro v hv
    rw [h3, List.mem_range'_1] at hv
    rw [h2]; exact hv
  refine ⟨added, h1, hlen, hpw, ?_, hbound, ?_⟩
  · rw [h3]; exact List.nodup_range' _ _
  · intro hinit hvalid
    rw [h1, List.map_append]
    refine List.pairwise_append.2 ⟨hinit, hpw, ?_⟩
    intro a ha b hb
    obtain ⟨light, hlight, rfl⟩ := List.mem_map.1 ha
    exact Nat.lt_of_lt_of_le (hvalid light hlight) (hbound b hb).1

/-- C9. One `AddPointLight` (resp. `AddDirectionalLight`) call appends exactly one light of kind
Point (resp. Directional) with the given color and position to `lights` and exactly one
entity with the given model index and zero offset and size to `entities`, leaves the lights
and entities that were there unchanged, and sets the new light's `visualRef` to the index of
the appended entity, a valid index into `entities`. -/
theorem AddLight_appends_light_and_entity {F : Type} [OfScientific F] (glm : Glm F)
    (app : App F) (modelIndex : Nat) (position direction lightcolor : vec3 F) :
    ((app.AddPointLight glm modelIndex position lightcolor).lights = app.lights ++
        [{ type := LightType.LightType_Point, color := lightcolor,
           direction := { x := 1.0, y := 1.0, z := 1.0 }, position := position,
           visualRef := app.entities.length }] ∧
      (app.AddPointLight glm modelIndex position lightcolor).entities = app.entities ++
        [{ worldMatrix := TransformPositionScale glm position (vec3.splat 0.15),
           modelIndex := modelIndex, localParamsOffset := 0, localParamsSize := 0 }] ∧
      app.entities.length <
        (app.AddPointLight glm modelIndex position lightcolor).entities.length ∧
      (app.AddPointLight glm modelIndex position lightcolor).entities[app.entities.length]? =
        some { worldMatrix := TransformPositionScale glm position (vec3.splat 0.15),
               modelIndex := modelIndex, localParamsOffset := 0, localParamsSize := 0 }) ∧
    ((app.AddDirectionalLight glm modelIndex position direction lightcolor).lights =
        app.lights ++
        [{ type := LightType.LightType_Directional, color := lightcolor,
           direction := direction, position := position,
           visualRef := app.entities.length }] ∧
      (app.AddDirectionalLight glm modelIndex position direction lightcolor).entities =
        app.entities ++
        [{ worldMatrix := TransformPositionScale glm position (vec3.splat 0.15),
           modelIndex := modelIndex, localParamsOffset := 0, localParamsSize := 0 }] ∧
      app.entities.length <
        (app.AddDirectionalLight glm modelIndex position direction lightcolor).entities.length ∧
      (app.AddDirectionalLight glm modelIndex position direction lightcolor).entities[
          app.entities.length]? =
        some { worldMatrix := TransformPositionScale glm position (vec3.splat 0.15),
               modelIndex := modelIndex, localParamsOffset := 0, localParamsSize := 0 }) := by
  rw [AddPointLight_eq, AddDirectionalLight_eq]
  simp

theorem alignUp_sizeofVec4_ge (v : Nat) : v ≤ alignUp v sizeofVec4 := by
  unfold alignUp sizeofVec4; omega

theorem alignUp_sizeofVec4_lt (v : Nat) : alignUp v sizeofVec4 < v + 16 := by
  unfold alignUp sizeofVec4; omega

theorem alignUp_dvd (v a : Nat) : a ∣ alignUp v a :=
  Nat.dvd_mul_left _ _

theorem lightsEnd_eq_add_sum (head n : Nat) :
    lightsEnd head n = head + (lightRecordSizes head n).sum := by
  induction n generalizing head with
  | zero => simp [lightsEnd, lightRecordSizes]
  | succ n ih =>
    have := alignUp_sizeofVec4_ge head
    simp only [lightsEnd, lightRecordSizes, List.sum_cons, ih]
    omega

theorem lightRecordSizes_length (head n : Nat) : (lightRecordSizes head n).length = n := by
  induction n generalizing head with
  | zero => rfl
  | succ n ih => simp [lightRecordSizes, ih]

theorem lightRecordSizes_bounds (head n : Nat) :
    ∀ s ∈ lightRecordSizes head n, 40 ≤ s ∧ s < 56 := by
  induction n generalizing head with
  | zero => intro s hs; cases hs
  | succ n ih =>
    intro s hs
    simp only [lightRecordSizes, List.mem_cons] at hs
    rcases hs with rfl | hs
    · have h1 := alignUp_sizeofVec4_ge head
      have h2 := alignUp_sizeofVec4_lt head
      omega
    · exact ih _ s hs

theorem lightsEnd_of_mod_eight (head n : Nat) (h : head % 16 = 8) :
    lightsEnd head n = head + 48 * n := by
  induction n generalizing head with
  | zero => simp [lightsEnd]
  | succ n ih =>
    have h1 : alignUp head sizeofVec4 = head + 8 := by
      unfold alignUp sizeofVec4; omega
    simp only [lightsEnd, h1]
    rw [ih _ (by omega)]
    omega

theorem lightsEnd_of_aligned (head n : Nat) (h : head % 16 = 0) :
    lightsEnd head n = if n = 0 then head else head + 48 * n - 8 := by
  cases n with
  | zero => simp [lightsEnd]
  | succ n =>
    have h1 : alignUp head sizeofVec4 = head := by
      unfold alignUp sizeofVec4; omega
    simp only [lightsEnd, h1, Nat.succ_ne_zero, if_false]
    rw [lightsEnd_of_mod_eight _ _ (by omega)]
    omega

theorem pushLights_ok {F : Type} [OfScientific F] (glm : Glm F) (lights : List (Light F))
    (buffer : Buffer F) (entities : List (Entity F))
    (hvalid : ∀ light ∈ lights, light.visualRef < entities.length) :
    ∃ b entities1, pushLights glm lights buffer entities = Except.ok (b, entities1) ∧
      b.head = lightsEnd buffer.head lights.length ∧ entities1.length = entities.length := by
  induction lights generalizing buffer entities with
  | nil => exact ⟨buffer, entities, rfl, rfl, rfl⟩
  | cons light rest ih =>
    have hl : light.visualRef < entities.length := hvalid light (List.mem_cons_self _ _)
    simp only [pushLights, hl, if_true]
    obtain ⟨b, entities1, h1, h2, h3⟩ := ih
      (PushVec3 (PushVec3 (PushVec3 (PushLightType (AlignHead buffer sizeofVec4) light.type)
        light.color) light.direction) light.position)
      (entities.modify
        (fun e =>
          { e with worldMatrix := TransformPositionScale glm light.position (vec3.splat 0.15) })
        light.visualRef)
      (by
        intro l hmem
        rw [List.length_modify]
        exact hvalid l (List.mem_cons_of_mem _ hmem))
    refine ⟨b, entities1, h1, ?_, ?_⟩
    · rw [h2]
      simp [lightsEnd, PushVec3, PushLightType, PushData, AlignHead, Cell.size, Nat.add_assoc]
    · rw [h3, List.length_modify]

theorem pushEntities_spec {F : Type} (glm : Glm F) (projection view : mat4 F) (a : Nat)
    (entities : List (Entity F)) (buffer : Buffer F) :
    (pushEntities glm projection view a entities buffer).2.length = entities.length ∧
      ∀ e ∈ (pushEntities glm projection view a entities buffer).2,
        a ∣ e.localParamsOffset := by
  induction entities generalizing buffer with
  | nil => exact ⟨rfl, fun e he => by cases he⟩
  | cons it rest ih =>
    simp only [pushEntities, List.length_cons, List.mem_cons]
    refine ⟨by rw [(ih _).1], ?_⟩
    rintro e (rfl | he)
    · exact alignUp_dvd _ _
    · exact (ih _).2 e he

/-- The result of `UpdateEntityBuffer` on a scene whose lights refer to entities. -/
theorem UpdateEntityBuffer_ok {F : Type} [OfScientific F] (glm : Glm F) (keys : Keys)
    (app : App F) (hvalid : ∀ light ∈ app.lights, light.visualRef < app.entities.length) :
    ∃ app1, app.UpdateEntityBuffer glm keys = Except.ok app1 ∧
      app1.globalParamsOffset = app.localUniformBuffer.head ∧
      app1.globalParamsSize =
        lightsEnd (app.localUniformBuffer.head + 16) app.lights.length -
          app.localUniformBuffer.head ∧
      app1.entities.length = app.entities.length ∧
      ∀ e ∈ app1.entities, app.uniformBlockAlignment ∣ e.localParamsOffset := by
  obtain ⟨b, entities1, h1, h2, h3⟩ := pushLights_ok glm app.lights
    (PushUInt (PushVec3 (MapBuffer app.localUniformBuffer)
      (app.HandleCameraInput glm keys
        (glm.cross (glm.cross app.camFront { x := 0.0, y := 1.0, z := 0.0 })
          app.camFront)).cameraPosition) app.lights.length)
    app.entities hvalid
  unfold App.UpdateEntityBuffer
  simp only [App.HandleCameraInput] at h1 ⊢
  rw [h1]
  refine ⟨_, rfl, rfl, ?_, ?_, ?_⟩
  · simp only [h2]
    simp [PushUInt, PushVec3, PushData, MapBuffer, Cell.size, Nat.add_assoc]
  · simp only [(pushEntities_spec _ _ _ _ _ _).1, h3]
  · exact (pushEntities_spec _ _ _ _ _ _).2

/-! ## C10: layout of the uniform buffer -/

/-- C10, counterexample. From an empty buffer the global block of a scene with no light takes
16 bytes, with one point light 56 bytes and with two point lights 104 bytes: the first record
follows the 16-byte header without padding, the second is padded by 8 bytes, and nothing
follows the last one. No header size `H` and per-light record size `R` give `H + N * R` for
the three scenes. -/
theorem globalParamsSize_not_header_plus_N_records :
    (∃ app1, (emptyScene.addLights sampleGlm (twoPointLights.take 0)).UpdateEntityBuffer
        sampleGlm noKeys = Except.ok app1 ∧ app1.globalParamsSize = 16) ∧
    (∃ app1, (emptyScene.addLights sampleGlm (twoPointLights.take 1)).UpdateEntityBuffer
        sampleGlm noKeys = Except.ok app1 ∧ app1.globalParamsSize = 56) ∧
    (∃ app1, (emptyScene.addLights sampleGlm (twoPointLights.take 2)).UpdateEntityBuffer
        sampleGlm noKeys = Except.ok app1 ∧ app1.globalParamsSize = 104) ∧
    ¬ ∃ H R : Nat, 16 = H + 0 * R ∧ 56 = H + 1 * R ∧ 104 = H + 2 * R := by
  refine ⟨?_, ?_, ?_, ?_⟩
  · obtain ⟨app1, h1, _, h3, _⟩ := UpdateEntityBuffer_ok sampleGlm noKeys
      (emptyScene.addLights sampleGlm (twoPointLights.take 0)) (by decide)
    exact ⟨app1, h1, h3.trans (by decide)⟩
  · obtain ⟨app1, h1, _, h3, _⟩ := UpdateEntityBuffer_ok sampleGlm noKeys
      (emptyScene.addLights sampleGlm (twoPointLights.take 1)) (by decide)
    exact ⟨app1, h1, h3.trans (by decide)⟩
  · obtain ⟨app1, h1, _, h3, _⟩ := UpdateEntityBuffer_ok sampleGlm noKeys
      (emptyScene.addLights sampleGlm (twoPointLights.take 2)) (by decide)
    exact ⟨app1, h1, h3.trans (by decide)⟩
  · rintro ⟨H, R, h0, h1, h2⟩
    omega

/-- C10, amended. For every scene whose lights refer to entities, with `N` lights, and every
`uniformBlockAlignment` (every positive power of two among them), `UpdateEntityBuffer` returns
and afterwards `globalParamsSize` is the 16-byte header plus the sizes of the `N` light
records, each of 40 bytes preceded by the padding (below 16 bytes) that brings its start to
a multiple of 16. When the head at which the block starts is a multiple of 16 the size is 16
for `N = 0` and `48 * N + 8` otherwise. The size is the same for every other scene, whatever
its lights, entities, camera and keys, that has as many lights and starts the block at the
same head. The number of entities is unchanged and every entity's `localParamsOffset` is a
multiple of `uniformBlockAlignment`. -/
theorem UpdateEntityBuffer_global_size_and_alignment {F : Type} [OfScientific F] (glm : Glm F)
    (keys : Keys) (app : App F)
    (hvalid : ∀ light ∈ app.lights, light.visualRef < app.entities.length) :
    ∃ app1, app.UpdateEntityBuffer glm keys = Except.ok app1 ∧
      app1.globalParamsSize =
        16 + (lightRecordSizes (app.localUniformBuffer.head + 16) app.lights.length).sum ∧
      (lightRecordSizes (app.localUniformBuffer.head + 16) app.lights.length).length =
        app.lights.length ∧
      (∀ s ∈ lightRecordSizes (app.localUniformBuffer.head + 16) app.lights.length,
        40 ≤ s ∧ s < 56) ∧
      (app.localUniformBuffer.head % 16 = 0 →
        app1.globalParamsSize =
          if app.lights.length = 0 then 16 else 48 * app.lights.length + 8) ∧
      (∀ (keys2 : Keys) (app2 : App F),
        (∀ light ∈ app2.lights, light.visualRef < app2.entities.length) →
        app2.localUniformBuffer.head = app.localUniformBuffer.head →
        app2.lights.length = app.lights.length →
        ∃ app3, app2.UpdateEntityBuffer glm keys2 = Except.ok app3 ∧
          app3.globalParamsSize = app1.globalParamsSize) ∧
      app1.entities.length = app.entities.length ∧
      ∀ e ∈ app1.entities, app.uniformBlockAlignment ∣ e.localParamsOffset := by
  obtain ⟨app1, h1, _, h3, h4, h5⟩ := UpdateEntityBuffer_ok glm keys app hvalid
  refine ⟨app1, h1, ?_, lightRecordSizes_length _ _, lightRecordSizes_bounds _ _, ?_, ?_,
    h4, h5⟩
  · rw [h3, lightsEnd_eq_add_sum]; omega
  · intro hmod
    rw [h3, lightsEnd_of_aligned _ _ (by omega)]
    split <;> omega
  · intro keys2 app2 hvalid2 hhead hlen
    obtain ⟨app3, k1, _, k3, _, _⟩ := UpdateEntityBuffer_ok glm keys2 app2 hvalid2
    exact ⟨app3, k1, by rw [k3, h3, hhead, hlen]⟩

/-- C10, witness: two point lights added to the empty scene, alignment 256. -/
theorem UpdateEntityBuffer_global_size_and_alignment_witness :
    ∃ app1, (emptyScene.addLights sampleGlm twoPointLights).UpdateEntityBuffer sampleGlm noKeys
        = Except.ok app1 ∧ app1.globalParamsSize = 104 ∧
      ∀ e ∈ app1.entities, 256 ∣ e.localParamsOffset := by
  obtain ⟨app1, h1, _, _, _, h5, _, _, h7⟩ :=
    UpdateEntityBuffer_global_size_and_alignment sampleGlm noKeys
      (emptyScene.addLights sampleGlm twoPointLights) (by decide)
  exact ⟨app1, h1, (h5 (by decide)).trans (by decide), h7⟩

/-! ## Lemmas on the contents of the uniform buffer -/

theorem pushLights_eq {F : Type} [OfScientific F] (glm : Glm F) (lights : List (Light F))
    (buffer : Buffer F) (entities : List (Entity F))
    (hvalid : ∀ light ∈ lights, light.visualRef < entities.length) :
    pushLights glm lights buffer entities =
      Except.ok ({ buffer with head := lightsEnd buffer.head lights.length,
                               data := buffer.data ++ lightCells buffer.head lights },
        overwriteWorldMatrices glm lights entities) := by
  induction lights generalizing buffer entities with
  | nil => simp [pushLights, lightsEnd, lightCells, overwriteWorldMatrices]
  | cons light rest ih =>
    have hl : light.visualRef < entities.length := hvalid light (List.mem_cons_self _ _)
    simp only [pushLights, hl, if_true]
    rw [ih]
    · simp [lightsEnd, lightCells, overwriteWorldMatrices, PushVec3, PushLightType, PushData,
        AlignHead, Cell.size, Nat.add_assoc]
    · intro l hmem
      rw [List.length_modify]
      exact hvalid l (List.mem_cons_of_mem _ hmem)

theorem pushEntities_eq {F : Type} (glm : Glm F) (projection view : mat4 F) (a : Nat)
    (entities : List (Entity F)) (buffer : Buffer F) :
    pushEntities glm projection view a entities buffer =
      ({ buffer with head := entitiesEnd a buffer.head entities.length,
                     data := buffer.data ++ entityCells glm projection view a buffer.head entities },
        placeEntities a buffer.head entities) := by
  induction entities generalizing buffer with
  | nil => simp [pushEntities, entitiesEnd, entityCells, placeEntities]
  | cons it rest ih =>
    simp only [pushEntities, ih]
    simp [entitiesEnd, entityCells, placeEntities, PushMat4, PushData, AlignHead, Cell.size,
      Nat.add_assoc]

theorem overwriteWorldMatrices_length {F : Type} [OfScientific F] (glm : Glm F)
    (lights : List (Light F)) (entities : List (Entity F)) :
    (overwriteWorldMatrices glm lights entities).length = entities.length := by
  induction lights generalizing entities with
  | nil => rfl
  | cons light rest ih => simp [overwriteWorldMatrices, ih]

theorem HandleCameraInput_noKeys {F : Type} [OfScientific F] (glm : Glm F) (app : App F)
    (yCam : vec3 F) : app.HandleCameraInput glm noKeys yCam = app := by
  simp [App.HandleCameraInput, noKeys]

/-- The state `UpdateEntityBuffer` returns on a scene whose lights refer to entities. -/
theorem UpdateEntityBuffer_eq {F : Type} [OfScientific F] (glm : Glm F) (keys : Keys)
    (app : App F) (hvalid : ∀ light ∈ app.lights, light.visualRef < app.entities.length) :
    app.UpdateEntityBuffer glm keys = Except.ok
      { app with
        cameraPosition := app.cameraAfterInput glm keys,
        localUniformBuffer :=
          { app.localUniformBuffer with
            mapped := false,
            head := entitiesEnd app.uniformBlockAlignment
              (lightsEnd (app.localUniformBuffer.head + 16) app.lights.length)
              app.entities.length,
            data := app.localUniformBuffer.data ++
              ([(app.localUniformBuffer.head, Cell.vec3 (app.cameraAfterInput glm keys)),
                (app.localUniformBuffer.head + 12, Cell.uint app.lights.length)] ++
                lightCells (app.localUniformBuffer.head + 16) app.lights) ++
              entityCells glm (app.projectionMatrix glm) (app.viewMatrix glm keys)
                app.uniformBlockAlignment
                (lightsEnd (app.localUniformBuffer.head + 16) app.lights.length)
                (overwriteWorldMatrices glm app.lights app.entities) },
        entities := placeEntities app.uniformBlockAlignment
          (lightsEnd (app.localUniformBuffer.head + 16) app.lights.length)
          (overwriteWorldMatrices glm app.lights app.entities),
        globalParamsOffset := app.localUniformBuffer.head,
        globalParamsSize :=
          lightsEnd (app.localUniformBuffer.head + 16) app.lights.length -
            app.localUniformBuffer.head } := by
  unfold App.UpdateEntityBuffer
  have hvalid1 : ∀ light ∈ (app.HandleCameraInput glm keys
      (glm.cross (glm.cross app.camFront { x := 0.0, y := 1.0, z := 0.0 })
        app.camFront)).lights,
      light.visualRef < (app.HandleCameraInput glm keys
        (glm.cross (glm.cross app.camFront { x := 0.0, y := 1.0, z := 0.0 })
          app.camFront)).entities.length := hvalid
  simp only [pushLights_eq glm _ _ _ hvalid1, pushEntities_eq]
  simp [App.HandleCameraInput, PushUInt, PushVec3, PushData, MapBuffer, UnmapBuffer, Cell.size,
    Nat.add_assoc, overwriteWorldMatrices_length, App.cameraAfterInput, App.projectionMatrix,
    App.viewMatrix, App.yCam]

theorem cameraAfterInput_noKeys {F : Type} [OfScientific F] (glm : Glm F) (app : App F) :
    app.cameraAfterInput glm noKeys = app.cameraPosition := by
  simp [App.cameraAfterInput, HandleCameraInput_noKeys]

theorem le_alignUp (v a : Nat) (ha : 0 < a) : v ≤ alignUp v a := by
  unfold alignUp
  have h1 := Nat.div_add_mod (v + a - 1) a
  have h2 := Nat.mod_lt (v + a - 1) ha
  have h3 : (v + a - 1) / a * a = a * ((v + a - 1) / a) := Nat.mul_comm _ _
  omega

theorem alignUp_lt_add (v a : Nat) (ha : 0 < a) : alignUp v a < v + a := by
  unfold alignUp
  have h1 := Nat.div_add_mod (v + a - 1) a
  have h3 : (v + a - 1) / a * a = a * ((v + a - 1) / a) := Nat.mul_comm _ _
  omega

theorem le_lightsEnd (head n : Nat) : head ≤ lightsEnd head n := by
  induction n generalizing head with
  | zero => exact Nat.le_refl _
  | succ n ih =>
    have h1 := alignUp_sizeofVec4_ge head
    have h2 := ih (alignUp head sizeofVec4 + 40)
    simp only [lightsEnd]
    omega

theorem le_entitiesEnd (a head n : Nat) (ha : 0 < a) : head ≤ entitiesEnd a head n := by
  induction n generalizing head with
  | zero => exact Nat.le_refl _
  | succ n ih =>
    have h1 := le_alignUp head a ha
    have h2 := ih (alignUp head a + 128)
    simp only [entitiesEnd]
    omega

theorem lightCells_values {F : Type} (head : Nat) (lights : List (Light F)) :
    (lightCells head lights).map Prod.snd = lights.flatMap lightRecord := by
  induction lights generalizing head with
  | nil => rfl
  | cons light rest ih =>
    rw [List.flatMap_cons]
    simp [lightCells, lightRecord, ih]

theorem lightCells_bounds {F : Type} (head : Nat) (lights : List (Light F)) :
    ∀ c ∈ lightCells head lights,
      head ≤ c.1 ∧ c.1 + c.2.size ≤ lightsEnd head lights.length := by
  induction lights generalizing head with
  | nil => intro c hc; cases hc
  | cons light rest ih =>
    intro c hc
    have h1 := alignUp_sizeofVec4_ge head
    have h2 := le_lightsEnd (alignUp head sizeofVec4 + 40) rest.length
    simp only [lightCells, List.cons_append, List.nil_append, List.mem_cons] at hc
    simp only [List.length_cons, lightsEnd]
    rcases hc with rfl | rfl | rfl | rfl | hc
    · simp only [Cell.size]; omega
    · simp only [Cell.size]; omega
    · simp only [Cell.size]; omega
    · simp only [Cell.size]; omega
    · have := ih _ c hc
      omega

theorem lightCells_pairwise {F : Type} (head : Nat) (lights : List (Light F)) :
    (lightCells head lights).Pairwise (fun c d => c.1 + c.2.size ≤ d.1) := by
  induction lights generalizing head with
  | nil => exact List.Pairwise.nil
  | cons light rest ih =>
    have hb := lightCells_bounds (alignUp head sizeofVec4 + 40) rest
    simp only [lightCells, List.cons_append, List.nil_append, List.pairwise_cons, List.mem_cons]
    refine ⟨?_, ?_, ?_, ?_, ih _⟩
    · rintro d (rfl | rfl | rfl | hd)
      · simp only [Cell.size]; omega
      · simp only [Cell.size]; omega
      · simp only [Cell.size]; omega
      · have := hb d hd; simp only [Cell.size]; omega
    · rintro d (rfl | rfl | hd)
      · simp only [Cell.size]; omega
      · simp only [Cell.size]; omega
      · have := hb d hd; simp only [Cell.size]; omega
    · rintro d (rfl | hd)
      · simp only [Cell.size]; omega
      · have := hb d hd; simp only [Cell.size]; omega
    · intro d hd
      have := hb d hd; simp only [Cell.size]; omega

theorem entityCells_bounds {F : Type} (glm : Glm F) (projection view : mat4 F) (a : Nat)
    (ha : 0 < a) (head : Nat) (entities : List (Entity F)) :
    ∀ c ∈ entityCells glm projection view a head entities,
      head ≤ c.1 ∧ c.1 + c.2.size ≤ entitiesEnd a head entities.length := by
  induction entities generalizing head with
  | nil => intro c hc; cases hc
  | cons it rest ih =>
    intro c hc
    have h1 := le_alignUp head a ha
    have h2 := le_entitiesEnd a (alignUp head a + 128) rest.length ha
    simp only [entityCells, List.cons_append, List.nil_append, List.mem_cons] at hc
    simp only [List.length_cons, entitiesEnd]
    rcases hc with rfl | rfl | hc
    · simp only [Cell.size]; omega
    · simp only [Cell.size]; omega
    · have := ih _ c hc
      omega

theorem placeEntities_length {F : Type} (a head : Nat) (entities : List (Entity F)) :
    (placeEntities a head entities).length = entities.length := by
  induction entities generalizing head with
  | nil => rfl
  | cons it rest ih => simp [placeEntities, ih]

theorem placeEntities_getElem? {F : Type} (a head : Nat) (entities : List (Entity F)) (i : Nat) :
    ∃ offset, (placeEntities a head entities)[i]? =
      (entities[i]?).map
        (fun e => { e with localParamsOffset := offset, localParamsSize := 128 }) := by
  induction entities generalizing head i with
  | nil => exact ⟨0, by simp [placeEntities]⟩
  | cons it rest ih =>
    cases i with
    | zero => exact ⟨alignUp head a, by simp [placeEntities]⟩
    | succ i =>
      obtain ⟨offset, h⟩ := ih (alignUp head a + 128) i
      exact ⟨offset, by simpa [placeEntities] using h⟩

theorem placeEntities_bounds {F : Type} (a : Nat) (ha : 0 < a) (head : Nat)
    (entities : List (Entity F)) :
    ∀ e ∈ placeEntities a head entities,
      head ≤ e.localParamsOffset ∧ e.localParamsSize = 128 ∧
        e.localParamsOffset + e.localParamsSize ≤ entitiesEnd a head entities.length := by
  induction entities generalizing head with
  | nil => intro e he; cases he
  | cons it rest ih =>
    intro e he
    have h1 := le_alignUp head a ha
    have h2 := le_entitiesEnd a (alignUp head a + 128) rest.length ha
    simp only [placeEntities, List.mem_cons] at he
    simp only [List.length_cons, entitiesEnd]
    rcases he with rfl | he
    · refine ⟨h1, rfl, ?_⟩
      show alignUp head a + 128 ≤ _
      exact h2
    · have := ih _ e he
      omega

theorem placeEntities_pairwise {F : Type} (a : Nat) (ha : 0 < a) (head : Nat)
    (entities : List (Entity F)) :
    (placeEntities a head entities).Pairwise
      (fun e1 e2 => e1.localParamsOffset + e1.localParamsSize ≤ e2.localParamsOffset) := by
  induction entities generalizing head with
  | nil => exact List.Pairwise.nil
  | cons it rest ih =>
    simp only [placeEntities, List.pairwise_cons]
    refine ⟨?_, ih _⟩
    intro e he
    exact (placeEntities_bounds a ha _ rest e he).1

theorem placeEntities_packed {F : Type} (glm : Glm F) (projection view : mat4 F) (a head : Nat)
    (entities : List (Entity F)) :
    ∀ e ∈ placeEntities a head entities,
      (e.localParamsOffset, Cell.mat4 e.worldMatrix) ∈
          entityCells glm projection view a head entities ∧
        (e.localParamsOffset + 64,
            Cell.mat4 (glm.matMul (glm.matMul projection view) e.worldMatrix)) ∈
          entityCells glm projection view a head entities := by
  induction entities generalizing head with
  | nil => intro e he; cases he
  | cons it rest ih =>
    intro e he
    simp only [placeEntities, List.mem_cons] at he
    simp only [entityCells, List.cons_append, List.nil_append, List.mem_cons]
    rcases he with rfl | he
    · exact ⟨Or.inl rfl, Or.inr (Or.inl rfl)⟩
    · have := ih _ e he
      exact ⟨Or.inr (Or.inr this.1), Or.inr (Or.inr this.2)⟩

theorem overwriteWorldMatrices_getElem?_of_ne {F : Type} [OfScientific F] (glm : Glm F)
    (lights : List (Light F)) (entities : List (Entity F)) (i : Nat)
    (h : ∀ light ∈ lights, light.visualRef ≠ i) :
    (overwriteWorldMatrices glm lights entities)[i]? = entities[i]? := by
  induction lights generalizing entities with
  | nil => rfl
  | cons light rest ih =>
    simp only [overwriteWorldMatrices]
    rw [ih _ (fun l hl => h l (List.mem_cons_of_mem _ hl))]
    rw [List.getElem?_modify]
    simp [h light (List.mem_cons_self _ _)]

theorem overwriteWorldMatrices_modelIndex {F : Type} [OfScientific F] (glm : Glm F)
    (lights : List (Light F)) (entities : List (Entity F)) :
    (overwriteWorldMatrices glm lights entities).map Entity.modelIndex =
      entities.map Entity.modelIndex := by
  induction lights generalizing entities with
  | nil => rfl
  | cons light rest ih =>
    simp only [overwriteWorldMatrices]
    rw [ih]
    apply List.ext_getElem?
    intro i
    simp only [List.getElem?_map, List.getElem?_modify]
    cases entities[i]? with
    | none => rfl
    | some e => by_cases hi : light.visualRef = i <;> simp [hi]

theorem overwriteWorldMatrices_getElem?_of_mem {F : Type} [OfScientific F] (glm : Glm F)
    (lights : List (Light F)) (entities : List (Entity F))
    (hnd : (lights.map Light.visualRef).Nodup)
    (hvalid : ∀ light ∈ lights, light.visualRef < entities.length) :
    ∀ light ∈ lights,
      ((overwriteWorldMatrices glm lights entities)[light.visualRef]?).map Entity.worldMatrix =
        some (TransformPositionScale glm light.position (vec3.splat 0.15)) := by
  induction lights generalizing entities with
  | nil => intro l hl; cases hl
  | cons l0 rest ih =>
    intro light hl
    simp only [List.map_cons, List.nodup_cons, List.mem_map, not_exists, not_and] at hnd
    simp only [overwriteWorldMatrices]
    rcases List.mem_cons.1 hl with rfl | hrest
    · rw [overwriteWorldMatrices_getElem?_of_ne glm rest _ _
        (fun l hl' e => hnd.1 l hl' e)]
      have hlt := hvalid light (List.mem_cons_self _ _)
      rw [List.getElem?_modify]
      simp [List.getElem?_eq_getElem hlt]
    · exact ih _ hnd.2 (fun l hl' => by
        rw [List.length_modify]; exact hvalid l (List.mem_cons_of_mem _ hl')) light hrest

/-! ## C11, C12, C13: contents of the uniform buffer and world matrices -/

/-- C11. On a scene whose lights refer to entities, `UpdateEntityBuffer` returns and the values
it writes into the global block are, in increasing and non-overlapping byte positions from
`globalParamsOffset` on: the camera position (the one left in the state, which is the one
before the call when no key is pressed), the light count `lights.size()`, and then for each
light in light-index order its kind, color, direction and position. Each of these values
lies inside the span of `globalParamsSize` bytes from `globalParamsOffset`, and with a
positive block alignment every value written afterwards lies behind that span. -/
theorem UpdateEntityBuffer_global_block {F : Type} [OfScientific F] (glm : Glm F) (keys : Keys)
    (app : App F) (hvalid : ∀ light ∈ app.lights, light.visualRef < app.entities.length) :
    ∃ (app1 : App F) (globalCells entityCells : List (Nat × Cell F)),
      app.UpdateEntityBuffer glm keys = Except.ok app1 ∧
      app1.lights = app.lights ∧
      (keys = noKeys → app1.cameraPosition = app.cameraPosition) ∧
      app1.localUniformBuffer.data =
        app.localUniformBuffer.data ++ globalCells ++ entityCells ∧
      globalCells.map Prod.snd =
        Cell.vec3 app1.cameraPosition :: Cell.uint app.lights.length ::
          app.lights.flatMap lightRecord ∧
      globalCells.Pairwise (fun c d => c.1 + c.2.size ≤ d.1) ∧
      (globalCells.head?).map Prod.fst = some app1.globalParamsOffset ∧
      (∀ c ∈ globalCells, app1.globalParamsOffset ≤ c.1 ∧
        c.1 + c.2.size ≤ app1.globalParamsOffset + app1.globalParamsSize) ∧
      (0 < app.uniformBlockAlignment →
        ∀ c ∈ entityCells, app1.globalParamsOffset + app1.globalParamsSize ≤ c.1) := by
  have hle := le_lightsEnd (app.localUniformBuffer.head + 16) app.lights.length
  have hb := lightCells_bounds (app.localUniformBuffer.head + 16) app.lights
  refine ⟨_, [(app.localUniformBuffer.head, Cell.vec3 (app.cameraAfterInput glm keys)),
      (app.localUniformBuffer.head + 12, Cell.uint app.lights.length)] ++
      lightCells (app.localUniformBuffer.head + 16) app.lights,
    entityCells glm (app.projectionMatrix glm) (app.viewMatrix glm keys)
      app.uniformBlockAlignment
      (lightsEnd (app.localUniformBuffer.head + 16) app.lights.length)
      (overwriteWorldMatrices glm app.lights app.entities),
    UpdateEntityBuffer_eq glm keys app hvalid, rfl, ?_, ?_, ?_, ?_, rfl, ?_, ?_⟩
  · intro hk
    rw [hk]
    exact cameraAfterInput_noKeys glm app
  · simp only [List.append_assoc]
  · simp [lightCells_values]
  · simp only [List.cons_append, List.nil_append, List.pairwise_cons, List.mem_cons]
    refine ⟨?_, ?_, lightCells_pairwise _ _⟩
    · rintro d (rfl | hd)
      · simp only [Cell.size]; omega
      · have := hb d hd; simp only [Cell.size]; omega
    · intro d hd
      have := hb d hd; simp only [Cell.size]; omega
  · intro c hc
    simp only [List.cons_append, List.nil_append, List.mem_cons] at hc
    rcases hc with rfl | rfl | hc
    · simp only [Cell.size]; omega
    · simp only [Cell.size]; omega
    · have := hb c hc
      show app.localUniformBuffer.head ≤ c.1 ∧ c.1 + c.2.size ≤ app.localUniformBuffer.head +
        (lightsEnd (app.localUniformBuffer.head + 16) app.lights.length -
          app.localUniformBuffer.head)
      omega
  · intro ha c hc
    have := entityCells_bounds glm _ _ _ ha _ _ c hc
    show app.localUniformBuffer.head +
        (lightsEnd (app.localUniformBuffer.head + 16) app.lights.length -
          app.localUniformBuffer.head) ≤ c.1
    omega

/-- C11, witness: two point lights added at (2, 1, 1) and then at (-2, 1, 1), both of color
(0, 1, 0); the global block holds the camera position, the count 2, and the two records in
that order (the direction of a point light is the constant (1, 1, 1)). -/
theorem UpdateEntityBuffer_global_block_witness :
    ∃ (app1 : App Rat) (globalCells entityCells : List (Nat × Cell Rat)),
      (emptyScene.addLights sampleGlm twoPointLights).UpdateEntityBuffer sampleGlm noKeys
        = Except.ok app1 ∧
      app1.localUniformBuffer.data = globalCells ++ entityCells ∧
      globalCells.map Prod.snd =
        ([Cell.vec3 { x := 0, y := 0, z := 0 }, Cell.uint 2,
         Cell.lightType LightType.LightType_Point, Cell.vec3 { x := 0, y := 1, z := 0 },
         Cell.vec3 { x := 1.0, y := 1.0, z := 1.0 }, Cell.vec3 { x := 2, y := 1, z := 1 },
         Cell.lightType LightType.LightType_Point, Cell.vec3 { x := 0, y := 1, z := 0 },
         Cell.vec3 { x := 1.0, y := 1.0, z := 1.0 }, Cell.vec3 { x := -2, y := 1, z := 1 }]
          : List (Cell Rat)) := by
  obtain ⟨app1, globalCells, entityCells, h1, _, h3, h4, h5, _⟩ :=
    UpdateEntityBuffer_global_block sampleGlm noKeys
      (emptyScene.addLights sampleGlm twoPointLights) (by decide)
  refine ⟨app1, globalCells, entityCells, h1, ?_, ?_⟩
  · rw [h4]; rfl
  · rw [h5, h3 rfl]; rfl

/-- C12. Take a scene whose lights were all added by `AddPointLight`/`AddDirectionalLight`
calls, whatever has since been written into the other fields of its lights and entities.
`UpdateEntityBuffer` returns, keeps the lights, and for each light the entity at the light's
`visualRef` then has the world matrix `TransformPositionScale(light.position, vec3(0.15f))`
and that matrix is the value written in this call at the entity's `localParamsOffset`. -/
theorem UpdateEntityBuffer_light_entity_matrices {F : Type} [OfScientific F] (glm : Glm F)
    (keys : Keys) (app0 app : App F) (calls : List (AddLightCall F))
    (hnone : app0.lights = [])
    (hrefs : app.lights.map Light.visualRef =
      (app0.addLights glm calls).lights.map Light.visualRef)
    (hentities : app.entities.length = (app0.addLights glm calls).entities.length) :
    ∃ app1, app.UpdateEntityBuffer glm keys = Except.ok app1 ∧
      app1.lights = app.lights ∧
      ∀ light ∈ app.lights, ∃ e, app1.entities[light.visualRef]? = some e ∧
        e.worldMatrix = TransformPositionScale glm light.position (vec3.splat 0.15) ∧
        (e.localParamsOffset, Cell.mat4 e.worldMatrix) ∈
          app1.localUniformBuffer.data.drop app.localUniformBuffer.data.length := by
  obtain ⟨added, h1, h2, h3⟩ := addLights_spec glm calls app0
  rw [hnone, List.nil_append] at h1
  have hmap : app.lights.map Light.visualRef = List.range' app0.entities.length calls.length := by
    rw [hrefs, h1, h3]
  have hnd : (app.lights.map Light.visualRef).Nodup := by
    rw [hmap]; exact List.nodup_range' _ _
  have hvalid : ∀ light ∈ app.lights, light.visualRef < app.entities.length := by
    intro light hl
    have hm : light.visualRef ∈ app.lights.map Light.visualRef := List.mem_map_of_mem _ hl
    rw [hmap, List.mem_range'_1] at hm
    rw [hentities, h2]
    exact hm.2
  refine ⟨_, UpdateEntityBuffer_eq glm keys app hvalid, rfl, ?_⟩
  intro light hl
  have hw := overwriteWorldMatrices_getElem?_of_mem glm app.lights app.entities hnd hvalid
    light hl
  obtain ⟨offset, hp⟩ := placeEntities_getElem? app.uniformBlockAlignment
    (lightsEnd (app.localUniformBuffer.head + 16) app.lights.length)
    (overwriteWorldMatrices glm app.lights app.entities) light.visualRef
  cases he : (overwriteWorldMatrices glm app.lights app.entities)[light.visualRef]? with
  | none => rw [he] at hw; cases hw
  | some e0 =>
    rw [he] at hw hp
    simp only [Option.map_some', Option.some.injEq] at hw hp
    refine ⟨_, hp, hw, ?_⟩
    have hmem := List.getElem?_mem hp
    have hpacked := (placeEntities_packed glm (app.projectionMatrix glm)
      (app.viewMatrix glm keys) _ _ _ _ hmem).1
    simp only [List.append_assoc, List.drop_left]
    exact List.mem_append_right _ (List.mem_append_right _ hpacked)

/-- C12, witness: the scene of two point lights added to the empty scene. -/
theorem UpdateEntityBuffer_light_entity_matrices_witness :
    ∃ app1, (emptyScene.addLights sampleGlm twoPointLights).UpdateEntityBuffer sampleGlm noKeys
        = Except.ok app1 ∧
      app1.lights = (emptyScene.addLights sampleGlm twoPointLights).lights ∧
      ∀ light ∈ (emptyScene.addLights sampleGlm twoPointLights).lights,
        ∃ e, app1.entities[light.visualRef]? = some e ∧
          e.worldMatrix = TransformPositionScale sampleGlm light.position (vec3.splat 0.15) ∧
          (e.localParamsOffset, Cell.mat4 e.worldMatrix) ∈
            app1.localUniformBuffer.data.drop
              (emptyScene.addLights sampleGlm twoPointLights).localUniformBuffer.data.length :=
  UpdateEntityBuffer_light_entity_matrices sampleGlm noKeys emptyScene
    (emptyScene.addLights sampleGlm twoPointLights) twoPointLights rfl rfl rfl

/-- C13. On a scene whose lights refer to entities, `UpdateEntityBuffer` returns, keeps the
number of entities, and leaves the world matrix of every entity whose index is the
`visualRef` of no light as it was before the call. -/
theorem UpdateEntityBuffer_keeps_other_world_matrices {F : Type} [OfScientific F] (glm : Glm F)
    (keys : Keys) (app : App F)
    (hvalid : ∀ light ∈ app.lights, light.visualRef < app.entities.length) :
    ∃ app1, app.UpdateEntityBuffer glm keys = Except.ok app1 ∧
      app1.entities.length = app.entities.length ∧
      ∀ i, (∀ light ∈ app.lights, light.visualRef ≠ i) →
        (app1.entities[i]?).map Entity.worldMatrix =
          (app.entities[i]?).map Entity.worldMatrix := by
  refine ⟨_, UpdateEntityBuffer_eq glm keys app hvalid, ?_, ?_⟩
  · show (placeEntities _ _ _).length = _
    rw [placeEntities_length, overwriteWorldMatrices_length]
  · intro i hi
    obtain ⟨offset, hp⟩ := placeEntities_getElem? app.uniformBlockAlignment
      (lightsEnd (app.localUniformBuffer.head + 16) app.lights.length)
      (overwriteWorldMatrices glm app.lights app.entities) i
    show ((placeEntities _ _ _)[i]?).map Entity.worldMatrix = _
    rw [hp, overwriteWorldMatrices_getElem?_of_ne glm app.lights app.entities i hi]
    cases app.entities[i]? with
    | none => rfl
    | some e => rfl

/-- C13, witness: two point lights added to a scene that has one entity of its own; the
lights refer to the entities 1 and 2, and the world matrix of entity 0 stays the identity. -/
theorem UpdateEntityBuffer_keeps_other_world_matrices_witness :
    ∃ app1, (groundScene.addLights sampleGlm twoPointLights).UpdateEntityBuffer sampleGlm noKeys
        = Except.ok app1 ∧
      (app1.entities[0]?).map Entity.worldMatrix = some mat4.identity := by
  obtain ⟨app1, h1, _, h3⟩ :=
    UpdateEntityBuffer_keeps_other_world_matrices sampleGlm noKeys
      (groundScene.addLights sampleGlm twoPointLights) (by decide)
  exact ⟨app1, h1, (h3 0 (by decide)).trans rfl⟩

/-! ## C18: spans -/

/-- C18. On a scene whose lights refer to entities and with a positive block alignment,
`UpdateEntityBuffer` returns and the recorded spans do not overlap: every entity's block
starts at or after `globalParamsOffset + globalParamsSize`, and of two entities the block of
the one with the smaller index ends at or before the block of the other begins. -/
theorem UpdateEntityBuffer_spans_disjoint {F : Type} [OfScientific F] (glm : Glm F)
    (keys : Keys) (app : App F)
    (hvalid : ∀ light ∈ app.lights, light.visualRef < app.entities.length)
    (halign : 0 < app.uniformBlockAlignment) :
    ∃ app1, app.UpdateEntityBuffer glm keys = Except.ok app1 ∧
      (∀ e ∈ app1.entities,
        app1.globalParamsOffset + app1.globalParamsSize ≤ e.localParamsOffset) ∧
      (∀ (i j : Nat) (ei ej : Entity F), i < j → app1.entities[i]? = some ei →
        app1.entities[j]? = some ej →
        ei.localParamsOffset + ei.localParamsSize ≤ ej.localParamsOffset) := by
  have hle := le_lightsEnd (app.localUniformBuffer.head + 16) app.lights.length
  refine ⟨_, UpdateEntityBuffer_eq glm keys app hvalid, ?_, ?_⟩
  · intro e he
    have := (placeEntities_bounds app.uniformBlockAlignment halign _ _ e he).1
    show app.localUniformBuffer.head +
        (lightsEnd (app.localUniformBuffer.head + 16) app.lights.length -
          app.localUniformBuffer.head) ≤ e.localParamsOffset
    omega
  · intro i j ei ej hij hi hj
    have hpw := placeEntities_pairwise app.uniformBlockAlignment halign
      (lightsEnd (app.localUniformBuffer.head + 16) app.lights.length)
      (overwriteWorldMatrices glm app.lights app.entities)
    rw [List.pairwise_iff_getElem] at hpw
    obtain ⟨hi1, hi2⟩ := List.getElem?_eq_some.1 hi
    obtain ⟨hj1, hj2⟩ := List.getElem?_eq_some.1 hj
    have := hpw i j hi1 hj1 hij
    rw [hi2, hj2] at this
    exact this

/-- C18, witness: two point lights added to the empty scene, block alignment 256; the global
block ends at byte 104, the two entity blocks are bytes 256 to 384 and 512 to 640. -/
theorem UpdateEntityBuffer_spans_disjoint_witness :
    ∃ app1, (emptyScene.addLights sampleGlm twoPointLights).UpdateEntityBuffer sampleGlm noKeys
        = Except.ok app1 ∧
      (∀ e ∈ app1.entities,
        app1.globalParamsOffset + app1.globalParamsSize ≤ e.localParamsOffset) ∧
      (∀ (i j : Nat) (ei ej : Entity Rat), i < j → app1.entities[i]? = some ei →
        app1.entities[j]? = some ej →
        ei.localParamsOffset + ei.localParamsSize ≤ ej.localParamsOffset) :=
  UpdateEntityBuffer_spans_disjoint sampleGlm noKeys
    (emptyScene.addLights sampleGlm twoPointLights) (by decide) (by decide)

theorem callAll_callAll (gl : GLState) (cs ds : List GLCall) :
    (gl.callAll cs).callAll ds = gl.callAll (cs ++ ds) := by
  simp [GLState.callAll]

theorem textureCount_callAll (gl : GLState) (cs : List GLCall) :
    (gl.callAll cs).textureCount = gl.textureCount + cs.countP GLCall.isGenTextures := by
  simp [GLState.textureCount, GLState.callAll, List.countP_append]

theorem framebufferCount_callAll (gl : GLState) (cs : List GLCall) :
    (gl.callAll cs).framebufferCount =
      gl.framebufferCount + cs.countP GLCall.isGenFramebuffers := by
  simp [GLState.framebufferCount, GLState.callAll, List.countP_append]

theorem countP_isGenTextures_textureCalls (name : Nat) (internalFormat : InternalFormat)
    (displaySize : Int × Int) (format : PixelFormat) (type : PixelType) :
    (textureCalls name internalFormat displaySize format type).countP GLCall.isGenTextures
      = 1 := by
  simp [textureCalls, List.countP_cons, GLCall.isGenTextures]

theorem countP_isGenFramebuffers_textureCalls (name : Nat) (internalFormat : InternalFormat)
    (displaySize : Int × Int) (format : PixelFormat) (type : PixelType) :
    (textureCalls name internalFormat displaySize format type).countP
      GLCall.isGenFramebuffers = 0 := by
  simp [textureCalls, List.countP_cons, GLCall.isGenFramebuffers]

theorem CreateTexture_eq {F : Type} (app : App F) (isFloatingPoint : Bool) (gl : GLState) :
    app.CreateTexture isFloatingPoint gl =
      (gl.callAll (textureCalls (gl.textureCount + 1)
          (if isFloatingPoint then InternalFormat.GL_RGBA16F else InternalFormat.GL_RGBA8)
          app.displaySize PixelFormat.GL_RGBA
          (if isFloatingPoint then PixelType.GL_FLOAT else PixelType.GL_UNSIGNED_BYTE)),
        gl.textureCount + 1) := by
  simp [App.CreateTexture, glGenTextures, setTextureParameters, GLState.call, textureCalls,
    GLState.callAll]

theorem CreateDepthAttachment_eq {F : Type} (app : App F) (gl : GLState) :
    app.CreateDepthAttachment gl =
      (gl.callAll (textureCalls (gl.textureCount + 1)
          InternalFormat.GL_DEPTH_COMPONENT24 app.displaySize PixelFormat.GL_DEPTH_COMPONENT
          PixelType.GL_FLOAT),
        gl.textureCount + 1) := by
  simp [App.CreateDepthAttachment, glGenTextures, setTextureParameters, GLState.call,
    textureCalls, GLState.callAll]

/-- C14, counterexample. With a display of 800 by 600, `ConfigureFrameBuffer` leaves four
colour attachments in a record that had none; called again on that record, as a rebuild of
the G-buffer would do, it pushes four more: the record then has eight colour attachments and
eight draw buffers are registered, at the colour attachment points 0 to 7. -/
theorem ConfigureFrameBuffer_appends_attachments :
    emptyScene.displaySize = (800, 600) ∧
    (emptyScene.ConfigureFrameBuffer GL_FRAMEBUFFER_COMPLETE freshFrameBuffer freshContext).1 =
      { fbHandle := 1, colorAttachment := [1, 2, 3, 4], depthHandle := 5 } ∧
    (emptyScene.ConfigureFrameBuffer GL_FRAMEBUFFER_COMPLETE
      (emptyScene.ConfigureFrameBuffer GL_FRAMEBUFFER_COMPLETE freshFrameBuffer freshContext).1
      (emptyScene.ConfigureFrameBuffer GL_FRAMEBUFFER_COMPLETE freshFrameBuffer freshContext).2).1
      = { fbHandle := 2, colorAttachment := [1, 2, 3, 4, 6, 7, 8, 9], depthHandle := 10 } ∧
    GLCall.glDrawBuffers [36064, 36065, 36066, 36067, 36068, 36069, 36070, 36071] ∈
      (emptyScene.ConfigureFrameBuffer GL_FRAMEBUFFER_COMPLETE
        (emptyScene.ConfigureFrameBuffer GL_FRAMEBUFFER_COMPLETE freshFrameBuffer
          freshContext).1
        (emptyScene.ConfigureFrameBuffer GL_FRAMEBUFFER_COMPLETE freshFrameBuffer
          freshContext).2).2.calls := by
  refine ⟨rfl, by decide, by decide, by decide⟩

/-- C14, amended. On a framebuffer record that has no colour attachment at entry, as the one
`Init` passes, `ConfigureFrameBuffer` leaves exactly four colour attachments and one depth
attachment, for every display size: five fresh textures of that size, the first created as
`GL_RGBA8`, the next three as `GL_RGBA16F`, the fifth as `GL_DEPTH_COMPONENT24`. The four
colour textures are attached to a fresh framebuffer at the colour attachment points 0 to 3,
in order, the fifth at the depth attachment point, and exactly the points 0 to 3 are
registered as draw buffers. -/
theorem ConfigureFrameBuffer_fresh_record {F : Type} (app : App F) (framebufferStatus : Nat)
    (aConfigFB : FrameBuffer) (gl : GLState) (hempty : aConfigFB.colorAttachment = []) :
    app.ConfigureFrameBuffer framebufferStatus aConfigFB gl =
      ({ fbHandle := gl.framebufferCount + 1,
         colorAttachment := [gl.textureCount + 1, gl.textureCount + 2, gl.textureCount + 3,
           gl.textureCount + 4],
         depthHandle := gl.textureCount + 5 },
       gl.callAll
        (textureCalls (gl.textureCount + 1) InternalFormat.GL_RGBA8 app.displaySize
            PixelFormat.GL_RGBA PixelType.GL_UNSIGNED_BYTE ++
          textureCalls (gl.textureCount + 2) InternalFormat.GL_RGBA16F app.displaySize
            PixelFormat.GL_RGBA PixelType.GL_FLOAT ++
          textureCalls (gl.textureCount + 3) InternalFormat.GL_RGBA16F app.displaySize
            PixelFormat.GL_RGBA PixelType.GL_FLOAT ++
          textureCalls (gl.textureCount + 4) InternalFormat.GL_RGBA16F app.displaySize
            PixelFormat.GL_RGBA PixelType.GL_FLOAT ++
          textureCalls (gl.textureCount + 5) InternalFormat.GL_DEPTH_COMPONENT24
            app.displaySize PixelFormat.GL_DEPTH_COMPONENT PixelType.GL_FLOAT ++
          [GLCall.glGenFramebuffers (gl.framebufferCount + 1),
           GLCall.glBindFramebuffer (gl.framebufferCount + 1),
           GLCall.glFramebufferTexture GL_COLOR_ATTACHMENT0 (gl.textureCount + 1),
           GLCall.glFramebufferTexture (GL_COLOR_ATTACHMENT0 + 1) (gl.textureCount + 2),
           GLCall.glFramebufferTexture (GL_COLOR_ATTACHMENT0 + 2) (gl.textureCount + 3),
           GLCall.glFramebufferTexture (GL_COLOR_ATTACHMENT0 + 3) (gl.textureCount + 4),
           GLCall.glFramebufferTexture GL_DEPTH_ATTACHMENT (gl.textureCount + 5),
           GLCall.glDrawBuffers [GL_COLOR_ATTACHMENT0, GL_COLOR_ATTACHMENT0 + 1,
             GL_COLOR_ATTACHMENT0 + 2, GL_COLOR_ATTACHMENT0 + 3],
           GLCall.glCheckFramebufferStatus,
           GLCall.glBindFramebuffer 0])) := by
  simp only [App.ConfigureFrameBuffer, CreateTexture_eq, CreateDepthAttachment_eq, hempty,
    callAll_callAll, textureCount_callAll, framebufferCount_callAll, List.countP_append,
    countP_isGenTextures_textureCalls, countP_isGenFramebuffers_textureCalls,
    glGenFramebuffers, attachColorAttachments, ite_self, List.nil_append, List.cons_append]
  simp [GLState.callAll, GLState.call, GL_COLOR_ATTACHMENT0, Nat.add_assoc]

/-- C14, witness: the record and context before `Init`, display 800 by 600. -/
theorem ConfigureFrameBuffer_fresh_record_witness :
    emptyScene.ConfigureFrameBuffer GL_FRAMEBUFFER_COMPLETE freshFrameBuffer freshContext =
      ({ fbHandle := 1, colorAttachment := [1, 2, 3, 4], depthHandle := 5 },
       freshContext.callAll
        (textureCalls 1 InternalFormat.GL_RGBA8 (800, 600)
            PixelFormat.GL_RGBA PixelType.GL_UNSIGNED_BYTE ++
          textureCalls 2 InternalFormat.GL_RGBA16F (800, 600)
            PixelFormat.GL_RGBA PixelType.GL_FLOAT ++
          textureCalls 3 InternalFormat.GL_RGBA16F (800, 600)
            PixelFormat.GL_RGBA PixelType.GL_FLOAT ++
          textureCalls 4 InternalFormat.GL_RGBA16F (800, 600)
            PixelFormat.GL_RGBA PixelType.GL_FLOAT ++
          textureCalls 5 InternalFormat.GL_DEPTH_COMPONENT24 (800, 600)
            PixelFormat.GL_DEPTH_COMPONENT PixelType.GL_FLOAT ++
          [GLCall.glGenFramebuffers 1, GLCall.glBindFramebuffer 1,
           GLCall.glFramebufferTexture 36064 1, GLCall.glFramebufferTexture 36065 2,
           GLCall.glFramebufferTexture 36066 3, GLCall.glFramebufferTexture 36067 4,
           GLCall.glFramebufferTexture 36096 5,
           GLCall.glDrawBuffers [36064, 36065, 36066, 36067],
           GLCall.glCheckFramebufferStatus, GLCall.glBindFramebuffer 0])) :=
  ConfigureFrameBuffer_fresh_record emptyScene GL_FRAMEBUFFER_COMPLETE freshFrameBuffer
    freshContext rfl

/-- C15. `ConfigureFrameBuffer` reads the framebuffer status and does nothing with it:
whatever status `glCheckFramebufferStatus` reports, the function returns, with the record and
the calls it has for `GL_FRAMEBUFFER_COMPLETE`. So it does on the state before `Init` when
the status is `GL_FRAMEBUFFER_INCOMPLETE_ATTACHMENT` (`0x8CD6`, 36054): it returns the record
of the four colour attachments, and its last call unbinds the framebuffer. -/
theorem ConfigureFrameBuffer_ignores_status :
    (∀ (F : Type) (app : App F) (framebufferStatus : Nat) (aConfigFB : FrameBuffer)
        (gl : GLState),
      app.ConfigureFrameBuffer framebufferStatus aConfigFB gl =
        app.ConfigureFrameBuffer GL_FRAMEBUFFER_COMPLETE aConfigFB gl) ∧
    36054 ≠ GL_FRAMEBUFFER_COMPLETE ∧
    (emptyScene.ConfigureFrameBuffer 36054 freshFrameBuffer freshContext).1 =
      { fbHandle := 1, colorAttachment := [1, 2, 3, 4], depthHandle := 5 } ∧
    (emptyScene.ConfigureFrameBuffer 36054 freshFrameBuffer freshContext).2.calls.getLast? =
      some (GLCall.glBindFramebuffer 0) := by
  refine ⟨?_, by decide, by decide, by decide⟩
  intro F app framebufferStatus aConfigFB gl
  simp only [App.ConfigureFrameBuffer, ite_self]

/-! ## C17: the toggles of the composition pass -/

theorem UpdateEntityBuffer_keeps_fields {F : Type} [OfScientific F] (glm : Glm F) (keys : Keys)
    (app app1 : App F) (h : app.UpdateEntityBuffer glm keys = Except.ok app1) :
    app1.mode = app.mode ∧ app1.useDepth = app.useDepth ∧ app1.useNormal = app.useNormal ∧
      app1.programs = app.programs ∧
      app1.framebufferToQuadShader = app.framebufferToQuadShader ∧
      app1.deferredFrameBuffer = app.deferredFrameBuffer := by
  unfold App.UpdateEntityBuffer at h
  simp only at h
  split at h
  · cases h
  · cases h
    simp [App.HandleCameraInput]

theorem renderEntities_ok {F : Type} (ext : Externals) (p : Program) (entities : List (Entity F))
    (app app1 : App F) (gl gl1 : GLState)
    (h : renderEntities ext p entities app gl = Except.ok (app1, gl1)) :
    ∃ meshes, app1 = { app with meshes := meshes } := by
  induction entities generalizing app gl with
  | nil =>
    simp only [renderEntities, Except.ok.injEq, Prod.mk.injEq] at h
    exact ⟨app.meshes, h.1.symm⟩
  | cons it rest ih =>
    simp only [renderEntities] at h
    split at h
    · cases h
    · split at h
      · cases h
      · split at h
        · cases h
        · obtain ⟨meshes, hm⟩ := ih _ _ h
          exact ⟨meshes, hm⟩

theorem geometryPass_ok {F : Type} (ext : Externals) (app app1 : App F) (gl gl1 : GLState)
    (h : geometryPass ext app gl = Except.ok (app1, gl1)) :
    ∃ meshes, app1 = { app with meshes := meshes } := by
  simp only [geometryPass, App.RenderGeometry] at h
  split at h
  · cases h
  · split at h
    · cases h
    · rename_i heq
      simp only [Except.ok.injEq, Prod.mk.injEq] at h
      obtain ⟨meshes, hm⟩ := renderEntities_ok _ _ _ _ _ _ _ heq
      exact ⟨meshes, h.1 ▸ hm⟩

theorem compositionPass_eq {F : Type} (ext : Externals) (app : App F) (gl : GLState)
    (FBToBB : Program) (a0 a1 a2 a3 : Nat) (rest : List Nat)
    (hquad : app.programs[app.framebufferToQuadShader]? = some FBToBB)
    (hattachments : app.deferredFrameBuffer.colorAttachment = a0 :: a1 :: a2 :: a3 :: rest) :
    compositionPass ext app gl = Except.ok (gl.callAll (compositionCalls ext app FBToBB
      a0 a1 a2 a3 (if app.useNormal then 1 else 0) (if app.useDepth then 1 else 0))) := by
  simp [compositionPass, hquad, hattachments, GLState.call, GLState.callAll, compositionCalls]

theorem selectModes_togglesMatchMode {F : Type} (castMode : Nat → Mode) (imgui : ImGuiFrame F)
    (indices : List Nat) (app : App F) (h : togglesMatchMode app) :
    togglesMatchMode (selectModes castMode imgui indices app) := by
  induction indices generalizing app with
  | nil => exact h
  | cons i rest ih =>
    simp only [selectModes]
    split
    · apply ih
      cases hm : castMode i <;> simp [togglesMatchMode, hm]
    · exact ih app h

theorem Gui_togglesMatchMode {F : Type} (castMode : Nat → Mode) (imgui : ImGuiFrame F)
    (app : App F) (h : togglesMatchMode app) : togglesMatchMode (Gui castMode imgui app) := by
  unfold Gui
  split
  · exact selectModes_togglesMatchMode castMode imgui _ app h
  · exact h

/-- C17, counterexample. The example scene with mode `Mode_Depth` and the flag `useDepth`
clear, a state the mode selector of `Gui` does not produce but a caller that sets the mode
does: `Render` returns, and the one value it gives to `UseDepth` (location 6) is 0, as is
the one it gives to `UseNormal` (location 5). -/
theorem Render_depth_mode_with_stale_flag :
    staleDepthScene.mode = Mode.Mode_Depth ∧ staleDepthScene.useDepth = false ∧
    sampleExternals.glGetUniformLocation quadProgram.handle "UseDepth" = 6 ∧
    sampleExternals.glGetUniformLocation quadProgram.handle "UseNormal" = 5 ∧
    ∃ app2 gl2,
      Render sampleGlm noKeys sampleExternals staleDepthScene sceneContext
        = Except.ok (app2, gl2) ∧
      uniformValues 6 gl2.calls = [0] ∧ uniformValues 5 gl2.calls = [0] := by
  refine ⟨rfl, rfl, by decide, by decide, _, _, rfl, ?_, ?_⟩
  · decide
  · decide

/-- C17, amended. In each of the modes `Mode_Depth`, `Mode_Normals` and `Mode_Deferred`, when
the update of the entity buffer and the geometry pass return, the composition program is in
`programs` and the record has four colour attachments, `Render` returns, and its composition
pass gives `UseNormal` the value 1 if the flag `useNormal` is set at entry and 0 if not, and
`UseDepth` the value of the flag `useDepth` likewise: the mode takes no part. The values are
those of the mode (`UseDepth` 1 in `Mode_Depth` only, `UseNormal` 1 in `Mode_Normals` only)
in every state whose flags are as the mode selector of `Gui` sets them, and `Gui` keeps the
flags so. -/
theorem Render_composition_toggles {F : Type} [OfScientific F] (glm : Glm F) (keys : Keys)
    (ext : Externals) (app app1 app2 : App F) (gl gl1 : GLState) (FBToBB : Program)
    (a0 a1 a2 a3 : Nat) (rest : List Nat)
    (hmode : app.mode ≠ Mode.Mode_Forward)
    (hupdate : app.UpdateEntityBuffer glm keys = Except.ok app1)
    (hgeometry : geometryPass ext app1 gl = Except.ok (app2, gl1))
    (hquad : app.programs[app.framebufferToQuadShader]? = some FBToBB)
    (hattachments : app.deferredFrameBuffer.colorAttachment = a0 :: a1 :: a2 :: a3 :: rest) :
    Render glm keys ext app gl = Except.ok (app2, gl1.callAll (compositionCalls ext app2 FBToBB
        a0 a1 a2 a3 (if app.useNormal then 1 else 0) (if app.useDepth then 1 else 0))) ∧
      (togglesMatchMode app →
        Render glm keys ext app gl = Except.ok (app2, gl1.callAll (compositionCalls ext app2
          FBToBB a0 a1 a2 a3 (if app.mode = Mode.Mode_Normals then 1 else 0)
          (if app.mode = Mode.Mode_Depth then 1 else 0)))) ∧
      (∀ (castMode : Nat → Mode) (imgui : ImGuiFrame F),
        togglesMatchMode app → togglesMatchMode (Gui castMode imgui app)) := by
  obtain ⟨_, hd, hn, hp, hq, hf⟩ := UpdateEntityBuffer_keeps_fields glm keys app app1 hupdate
  obtain ⟨meshes, hm⟩ := geometryPass_ok ext app1 app2 gl gl1 hgeometry
  have hquad2 : app2.programs[app2.framebufferToQuadShader]? = some FBToBB := by
    rw [hm]
    simpa only [hp, hq] using hquad
  have hatt2 : app2.deferredFrameBuffer.colorAttachment = a0 :: a1 :: a2 :: a3 :: rest := by
    rw [hm]
    simpa only [hf] using hattachments
  have hn2 : app2.useNormal = app.useNormal := by rw [hm]; exact hn
  have hd2 : app2.useDepth = app.useDepth := by rw [hm]; exact hd
  have hcomp := compositionPass_eq ext app2 gl1 FBToBB a0 a1 a2 a3 rest hquad2 hatt2
  rw [hn2, hd2] at hcomp
  have hrender : Render glm keys ext app gl = Except.ok (app2, gl1.callAll
      (compositionCalls ext app2 FBToBB a0 a1 a2 a3 (if app.useNormal then 1 else 0)
        (if app.useDepth then 1 else 0))) := by
    unfold Render
    cases hmd : app.mode with
    | Mode_Forward => exact absurd hmd hmode
    | Mode_Depth => simp only [hupdate, hgeometry, hcomp]
    | Mode_Normals => simp only [hupdate, hgeometry, hcomp]
    | Mode_Deferred => simp only [hupdate, hgeometry, hcomp]
  refine ⟨hrender, ?_, ?_⟩
  · intro htoggles
    rw [hrender, htoggles.1, htoggles.2]
    simp
  · intro castMode imgui htoggles
    exact Gui_togglesMatchMode castMode imgui app htoggles

/-- C17, witness: the example scene after `Gui` took a click on the entry of the depth
mode; `UseNormal` is given 0 and `UseDepth` 1. -/
theorem Render_composition_toggles_witness :
    (Gui modeOfIndex (clickEntry 2) renderScene).mode = Mode.Mode_Depth ∧
    togglesMatchMode (Gui modeOfIndex (clickEntry 2) renderScene) ∧
    ∃ (app2 : App Rat) (gl1 : GLState),
      Render sampleGlm noKeys sampleExternals (Gui modeOfIndex (clickEntry 2) renderScene)
        sceneContext
        = Except.ok (app2, gl1.callAll (compositionCalls sampleExternals app2 quadProgram
            1 2 3 4 0 1)) :=
  ⟨rfl, ⟨rfl, rfl⟩, _, _, (Render_composition_toggles sampleGlm noKeys sampleExternals
    (Gui modeOfIndex (clickEntry 2) renderScene) _ _ sceneContext _ quadProgram 1 2 3 4 []
    (by decide) rfl rfl rfl rfl).1⟩

end KelShaderEngine
